import Mathlib

set_option maxHeartbeats 1000000

namespace PaymentInstructions

/-! Shallow embedding of src/endpoints/payment-instructions.js (the payment-instruction
core service). Strings are Lean strings, JavaScript numbers that hold account balances
and amounts are `Int`, and the three-valued JavaScript distinction between a missing
property, `null`, and a value is made explicit by `JField`. The current UTC calendar
date, which the source reads from the system clock, is threaded as an explicit
parameter; the process is modelled as running in the UTC timezone. -/

/-- Whitespace class of the JavaScript regex \s and String.prototype.trim, restricted
to the whitespace characters representable here. -/
def isWS (c : Char) : Bool :=
  c = (' ') || c = ('\t') || c = ('\n') || c = ('\r') || c = ('\x0b') || c = ('\x0c') || c = ('\u00A0')

/-- Embedding of String.prototype.trim on character lists. -/
def trimL (l : List Char) : List Char :=
  ((l.dropWhile isWS).reverse.dropWhile isWS).reverse

/-- Worker for whitespace collapsing: the flag records whether we are inside a
whitespace run whose single replacement space has already been emitted. -/
def collapseGo : Bool → List Char → List Char
  | _, [] => []
  | inRun, c :: cs =>
    if isWS c then
      if inRun then collapseGo true cs else (' ') :: collapseGo true cs
    else c :: collapseGo false cs

/-- Embedding of .replace(/\s+/g, ' '): every maximal whitespace run becomes one space. -/
def collapseL (l : List Char) : List Char :=
  collapseGo false l

/-- Character-list form of trim + collapse + toUpperCase, the normalization performed
by parseInstruction. -/
def normalizeL (l : List Char) : List Char :=
  (collapseL (trimL l)).map Char.toUpper

/-- Normalization of the raw instruction string: trim, collapse whitespace runs to
single spaces, upper-case. -/
def normalize (s : String) : String :=
  String.mk (normalizeL s.data)

/-- Embedding of String.prototype.split with a single-character separator: empty
pieces are kept, and the empty input yields one empty piece. -/
def splitChar (sep : Char) : List Char → List (List Char)
  | [] => [[]]
  | c :: cs =>
    if c = sep then [] :: splitChar sep cs
    else
      match splitChar sep cs with
      | [] => [[c]]
      | t :: ts => (c :: t) :: ts

/-- Token sequence of an instruction: normalize, then split on single spaces. -/
def tokenize (s : String) : List String :=
  (splitChar (' ') (normalizeL s.data)).map String.mk

/-- Tokens of the original instruction with whitespace normalized but case preserved,
as computed inside extractAccountId. -/
def origTokens (s : String) : List String :=
  (splitChar (' ') (collapseL (trimL s.data))).map String.mk

/-- Linear scan of findKeywordIndex, carrying the absolute index of the list head. -/
def findKeywordGo (keyword : String) : Nat → List String → Int
  | _, [] => -1
  | i, p :: ps => if p = keyword then (i : Int) else findKeywordGo keyword (i + 1) ps

/-- Embedding of findKeywordIndex: first index of the keyword at or after startFrom,
or -1. A negative startFrom (as produced by a failed earlier search) scans the whole
list, exactly as the JavaScript loop does. -/
def findKeywordIndex (parts : List String) (keyword : String) (startFrom : Int) : Int :=
  findKeywordGo keyword startFrom.toNat (parts.drop startFrom.toNat)

/-- Embedding of extractAccountId: recover the case-preserving token at the given
position from the whitespace-normalized original instruction, falling back to the
upper-cased token (or the empty string) when the position is out of range. -/
def extractAccountId (originalInstruction : String) (accountPosition : Nat)
    (parts : List String) : String :=
  if accountPosition < (origTokens originalInstruction).length then
    (origTokens originalInstruction).getD accountPosition ("")
  else parts.getD accountPosition ("")

/-- Characters allowed in an account identifier: letters, digits, '.', '@', '-'. -/
def isAccountIdChar (c : Char) : Bool :=
  c.isAlpha || c.isDigit || c = ('.') || c = ('@') || c = ('-')

/-- Embedding of isValidAccountId. -/
def isValidAccountId (accountId : String) : Bool :=
  if accountId = ("") then false else accountId.data.all isAccountIdChar

/-- Value of a maximal leading run of decimal digits, or none when there is no digit. -/
def digitsVal (l : List Char) : Option Nat :=
  if (l.takeWhile Char.isDigit).isEmpty then none
  else some ((l.takeWhile Char.isDigit).foldl (fun a c => a * 10 + (c.toNat - 48)) 0)

/-- Embedding of Number.parseInt(s, 10): skip leading whitespace, take an optional
sign and then the longest digit prefix; none models NaN. -/
def parseIntJS (s : String) : Option Int :=
  match s.data.dropWhile isWS with
  | ('-') :: rest => (digitsVal rest).map (fun n => -(n : Int))
  | ('+') :: rest => (digitsVal rest).map (fun n => (n : Int))
  | l => (digitsVal l).map (fun n => (n : Int))

/-- Gregorian leap-year rule. -/
def isLeapYear (y : Nat) : Bool :=
  y % 4 == 0 && (y % 100 != 0 || y % 400 == 0)

/-- Number of days of the given month, with February depending on the leap-year rule. -/
def daysInMonth (y m : Nat) : Nat :=
  match m with
  | 1 => 31
  | 2 => if isLeapYear y then 29 else 28
  | 3 => 31
  | 4 => 30
  | 5 => 31
  | 6 => 30
  | 7 => 31
  | 8 => 31
  | 9 => 30
  | 10 => 31
  | 11 => 30
  | 12 => 31
  | _ => 0

/-- Embedding of isValidDate: exact YYYY-MM-DD shape, numeric ranges, and the
Date-object round-trip check, which for months 1..12 and days 1..31 fails exactly
when the day exceeds the length of the month. -/
def isValidDate (dateStr : String) : Bool :=
  if dateStr.data.length ≠ 10 then false
  else if dateStr.data.getD 4 (' ') ≠ ('-') ∨ dateStr.data.getD 7 (' ') ≠ ('-') then false
  else if (splitChar ('-') dateStr.data).length ≠ 3 then false
  else
    match parseIntJS (String.mk ((splitChar ('-') dateStr.data).getD 0 [])),
          parseIntJS (String.mk ((splitChar ('-') dateStr.data).getD 1 [])),
          parseIntJS (String.mk ((splitChar ('-') dateStr.data).getD 2 [])) with
    | some y, some m, some d =>
      if y < 1000 ∨ y > 9999 then false
      else if m < 1 ∨ m > 12 then false
      else if d < 1 ∨ d > 31 then false
      else decide (d.toNat ≤ daysInMonth y.toNat m.toNat)
    | _, _, _ => false

/-- Days of the year that precede the first day of the given month. -/
def daysBeforeMonth (m : Nat) (leap : Bool) : Nat :=
  let base :=
    match m with
    | 1 => 0
    | 2 => 31
    | 3 => 59
    | 4 => 90
    | 5 => 120
    | 6 => 151
    | 7 => 181
    | 8 => 212
    | 9 => 243
    | 10 => 273
    | 11 => 304
    | 12 => 334
    | _ => 0
  if leap && decide (3 ≤ m) then base + 1 else base

/-- Number of leap years in the interval from year 1 to year y inclusive. -/
def leapsBefore (y : Nat) : Nat :=
  y / 4 - y / 100 + y / 400

/-- Day count of a calendar date from a fixed origin: strictly increasing in calendar
order, so comparing counts is exactly the epoch comparison of UTC midnights. -/
def daysBefore (y m d : Nat) : Nat :=
  365 * (y - 1) + leapsBefore (y - 1) + daysBeforeMonth m (isLeapYear y) + (d - 1)

/-- Year, month and day fields read back from a YYYY-MM-DD string. -/
def parseDateYMD (dateStr : String) : Nat × Nat × Nat :=
  (((parseIntJS (String.mk ((splitChar ('-') dateStr.data).getD 0 []))).getD 0).toNat,
   ((parseIntJS (String.mk ((splitChar ('-') dateStr.data).getD 1 []))).getD 0).toNat,
   ((parseIntJS (String.mk ((splitChar ('-') dateStr.data).getD 2 []))).getD 0).toNat)

/-- The current UTC calendar date, which the source derives from the system clock. -/
structure YMD where
  year : Nat
  month : Nat
  day : Nat
deriving DecidableEq

/-- The date strings for which new Date(dateStr + "T00:00:00.000Z") produces a valid
time value: exactly four digits, a dash, two digits, a dash, two digits, naming a
real calendar day. Any other shape fails the ISO date-time grammar (and the appended
time part rules out every fallback format), and engines also reject an ISO string
whose month or day component is out of range for the named month. -/
def isStrictISODate (dateStr : String) : Bool :=
  dateStr.data.length == 10 &&
  (dateStr.data.getD 0 ('0')).isDigit && (dateStr.data.getD 1 ('0')).isDigit &&
  (dateStr.data.getD 2 ('0')).isDigit && (dateStr.data.getD 3 ('0')).isDigit &&
  dateStr.data.getD 4 (' ') == ('-') &&
  (dateStr.data.getD 5 ('0')).isDigit && (dateStr.data.getD 6 ('0')).isDigit &&
  dateStr.data.getD 7 (' ') == ('-') &&
  (dateStr.data.getD 8 ('0')).isDigit && (dateStr.data.getD 9 ('0')).isDigit &&
  decide (1 ≤ (parseDateYMD dateStr).2.1) && decide ((parseDateYMD dateStr).2.1 ≤ 12) &&
  decide (1 ≤ (parseDateYMD dateStr).2.2) &&
  decide ((parseDateYMD dateStr).2.2 ≤ daysInMonth (parseDateYMD dateStr).1 (parseDateYMD dateStr).2.1)

/-- Embedding of isDateInPastOrToday for a process running in the UTC timezone. The
source parses dateStr + "T00:00:00.000Z", a strict ISO parse, so only a purely
digit-formatted YYYY-MM-DD naming a real calendar day yields a valid Date; that date
at UTC midnight is then compared against the current UTC calendar date at midnight.
An Invalid Date compares false, so every other string defers the settlement, even
strings accepted by isValidDate through the trailing-garbage tolerance of parseInt. -/
def isDateInPastOrToday (dateStr : String) (today : YMD) : Bool :=
  if isStrictISODate dateStr then
    match parseDateYMD dateStr with
    | (y, m, d) => decide (daysBefore y m d ≤ daysBefore today.year today.month today.day)
  else false

/-- Caller-supplied account record. The optional balance_before mirrors the fact that
a JavaScript record may or may not carry that property. -/
structure Acct where
  id : String
  balance : Int
  currency : String
  balance_before : Option Int := none
deriving DecidableEq

/-- Account entry of a response: id, new balance, upper-cased currency, and the
balance before settlement. -/
structure AccountView where
  id : String
  balance : Int
  currency : String
  balance_before : Int
deriving DecidableEq

/-- Fields extracted by the two grammar recognizers. -/
structure InnerData where
  amount : String
  currency : String
  debit_account : String
  credit_account : String
  execute_by : Option String
deriving DecidableEq

/-- Parsed instruction fields including the instruction type. -/
structure ParsedData where
  type : String
  amount : String
  currency : String
  debit_account : String
  credit_account : String
  execute_by : Option String
deriving DecidableEq

/-- Outcome of one grammar recognizer. -/
inductive InnerResult where
  | ok (data : InnerData)
  | err (code : String)
deriving DecidableEq

/-- Outcome of parseInstruction. On failure, nullFields records whether the failure
object carries explicit null fields (outer failures) or leaves the fields undefined
(failures produced inside the two recognizers). -/
inductive ParseResult where
  | ok (data : ParsedData)
  | err (code : String) (nullFields : Bool)
deriving DecidableEq

/-- Outcome of validateBusinessRules. -/
inductive ValidationResult where
  | ok
  | fail (code : String)
deriving DecidableEq

/-- A JavaScript object property that can be missing, null, or present. -/
inductive JField (α : Type) where
  | undef
  | jnull
  | val (a : α)
deriving DecidableEq

/-- Error-code-to-message table STATUS_CODES. -/
def statusMessage (code : String) : String :=
  match code with
  | "AM01" => "Amount must be a positive integer"
  | "CU01" => "Account currency mismatch"
  | "CU02" => "Unsupported currency. Only NGN, USD, GBP, and GHS are supported"
  | "AC01" => "Insufficient funds in debit account"
  | "AC02" => "Debit and credit accounts cannot be the same"
  | "AC03" => "Account not found"
  | "AC04" => "Invalid account ID format"
  | "DT01" => "Invalid date format"
  | "SY01" => "Missing required keyword"
  | "SY02" => "Invalid keyword order"
  | "SY03" => "Malformed instruction: unable to parse keywords"
  | "AP00" => "Transaction executed successfully"
  | "AP02" => "Transaction scheduled for future execution"
  | _ => ""

/-- The fixed supported-currency table. -/
def SUPPORTED_CURRENCIES : List String :=
  [("NGN"), ("USD"), ("GBP"), ("GHS")]

/-- Upper-casing of a string, character by character. -/
def strUpper (s : String) : String :=
  String.mk (s.data.map Char.toUpper)

/-- The seven keyword-anchor indices resolved by a recognizer, in resolution order. -/
structure AnchorIdx where
  k1 : Int
  acct1 : Int
  kFor : Int
  k4 : Int
  k5 : Int
  acct2 : Int
  kOn : Int
deriving DecidableEq

/-- Anchor resolution of the DEBIT form, with each search starting at the index
resolved by the previous one, exactly as in parseDebitInstruction. -/
def debitAnchors (parts : List String) : AnchorIdx :=
  let fromIndex := findKeywordIndex parts ("FROM") 0
  let accountIndex1 := findKeywordIndex parts ("ACCOUNT") fromIndex
  let forIndex := findKeywordIndex parts ("FOR") 0
  let creditIndex := findKeywordIndex parts ("CREDIT") forIndex
  let toIndex := findKeywordIndex parts ("TO") creditIndex
  let accountIndex2 := findKeywordIndex parts ("ACCOUNT") toIndex
  let onIndex := findKeywordIndex parts ("ON") accountIndex2
  ⟨fromIndex, accountIndex1, forIndex, creditIndex, toIndex, accountIndex2, onIndex⟩

/-- Anchor resolution of the CREDIT form, as in parseCreditInstruction. -/
def creditAnchors (parts : List String) : AnchorIdx :=
  let toIndex := findKeywordIndex parts ("TO") 0
  let accountIndex1 := findKeywordIndex parts ("ACCOUNT") toIndex
  let forIndex := findKeywordIndex parts ("FOR") 0
  let debitIndex := findKeywordIndex parts ("DEBIT") forIndex
  let fromIndex := findKeywordIndex parts ("FROM") debitIndex
  let accountIndex2 := findKeywordIndex parts ("ACCOUNT") fromIndex
  let onIndex := findKeywordIndex parts ("ON") accountIndex2
  ⟨toIndex, accountIndex1, forIndex, debitIndex, fromIndex, accountIndex2, onIndex⟩

/-- Embedding of parseDebitInstruction: presence of every mandatory anchor, then
strict ordering, then field extraction and the optional ON date. -/
def parseDebitInstruction (parts : List String) (originalInstruction : String) : InnerResult :=
  if (debitAnchors parts).k1 = -1 ∨ (debitAnchors parts).acct1 = -1 ∨
      (debitAnchors parts).kFor = -1 ∨ (debitAnchors parts).k4 = -1 ∨
      (debitAnchors parts).k5 = -1 ∨ (debitAnchors parts).acct2 = -1 then
    .err ("SY01")
  else if ¬ ((debitAnchors parts).k1 < (debitAnchors parts).acct1 ∧
      (debitAnchors parts).acct1 < (debitAnchors parts).kFor ∧
      (debitAnchors parts).kFor < (debitAnchors parts).k4 ∧
      (debitAnchors parts).k4 < (debitAnchors parts).k5 ∧
      (debitAnchors parts).k5 < (debitAnchors parts).acct2) then
    .err ("SY02")
  else
    .ok ⟨parts.getD 1 (""), parts.getD 2 (""),
      extractAccountId originalInstruction ((debitAnchors parts).acct1 + 1).toNat parts,
      extractAccountId originalInstruction ((debitAnchors parts).acct2 + 1).toNat parts,
      if (debitAnchors parts).kOn ≠ -1 ∧ (debitAnchors parts).kOn + 1 < (parts.length : Int) then
        some (parts.getD ((debitAnchors parts).kOn + 1).toNat (""))
      else none⟩

/-- Embedding of parseCreditInstruction. -/
def parseCreditInstruction (parts : List String) (originalInstruction : String) : InnerResult :=
  if (creditAnchors parts).k1 = -1 ∨ (creditAnchors parts).acct1 = -1 ∨
      (creditAnchors parts).kFor = -1 ∨ (creditAnchors parts).k4 = -1 ∨
      (creditAnchors parts).k5 = -1 ∨ (creditAnchors parts).acct2 = -1 then
    .err ("SY01")
  else if ¬ ((creditAnchors parts).k1 < (creditAnchors parts).acct1 ∧
      (creditAnchors parts).acct1 < (creditAnchors parts).kFor ∧
      (creditAnchors parts).kFor < (creditAnchors parts).k4 ∧
      (creditAnchors parts).k4 < (creditAnchors parts).k5 ∧
      (creditAnchors parts).k5 < (creditAnchors parts).acct2) then
    .err ("SY02")
  else
    .ok ⟨parts.getD 1 (""), parts.getD 2 (""),
      extractAccountId originalInstruction ((creditAnchors parts).acct2 + 1).toNat parts,
      extractAccountId originalInstruction ((creditAnchors parts).acct1 + 1).toNat parts,
      if (creditAnchors parts).kOn ≠ -1 ∧ (creditAnchors parts).kOn + 1 < (parts.length : Int) then
        some (parts.getD ((creditAnchors parts).kOn + 1).toNat (""))
      else none⟩

/-- Embedding of parseInstruction: empty input (the JavaScript falsiness check),
normalization, the 8-token minimum, then dispatch on the leading token. -/
def parseInstruction (instruction : String) : ParseResult :=
  if instruction = ("") then .err ("SY03") true
  else if (tokenize instruction).length < 8 then .err ("SY03") true
  else if (tokenize instruction).getD 0 ("") = ("DEBIT") then
    match parseDebitInstruction (tokenize instruction) instruction with
    | .ok d => .ok ⟨("DEBIT"), d.amount, d.currency, d.debit_account, d.credit_account, d.execute_by⟩
    | .err c => .err c false
  else if (tokenize instruction).getD 0 ("") = ("CREDIT") then
    match parseCreditInstruction (tokenize instruction) instruction with
    | .ok d => .ok ⟨("CREDIT"), d.amount, d.currency, d.debit_account, d.credit_account, d.execute_by⟩
    | .err c => .err c false
  else .err ("SY01") true

/-- Embedding of validateBusinessRules: the ordered cascade AM01, CU02, AC04, AC02,
AC03, CU01, AC01, DT01, stopping at the first failing rule. -/
def validateBusinessRules (parsedData : ParsedData) (accounts : List Acct) : ValidationResult :=
  if parsedData.amount = ("") ∨ parseIntJS parsedData.amount = none ∨
      (parseIntJS parsedData.amount).getD 0 ≤ 0 ∨ parsedData.amount.data.contains ('.') then
    .fail ("AM01")
  else if parsedData.currency = ("") ∨ ¬ (SUPPORTED_CURRENCIES.contains (strUpper parsedData.currency)) then
    .fail ("CU02")
  else if ¬ (isValidAccountId parsedData.debit_account ∧ isValidAccountId parsedData.credit_account) then
    .fail ("AC04")
  else if parsedData.debit_account = parsedData.credit_account then
    .fail ("AC02")
  else
    match accounts.find? (fun acc => acc.id == parsedData.debit_account),
          accounts.find? (fun acc => acc.id == parsedData.credit_account) with
    | some debitAcc, some creditAcc =>
      if strUpper debitAcc.currency ≠ strUpper creditAcc.currency ∨
          strUpper debitAcc.currency ≠ strUpper parsedData.currency then
        .fail ("CU01")
      else if debitAcc.balance < (parseIntJS parsedData.amount).getD 0 then
        .fail ("AC01")
      else if (match parsedData.execute_by with
               | some e => e ≠ ("") && ! isValidDate e
               | none => false) then
        .fail ("DT01")
      else .ok
    | _, _ => .fail ("AC03")

/-- Result of the settlement executor. -/
structure SettlementResult where
  status : String
  status_reason : String
  status_code : String
  accounts : List AccountView
deriving DecidableEq

/-- Embedding of createAccountsResponse: keep exactly the accounts whose id is one of
the two involved ones, upper-case the currency, and attach balance_before. -/
def createAccountsResponse (accounts : List Acct) (debitAccountId creditAccountId : String)
    (includeBalanceBefore : Bool) : List AccountView :=
  accounts.filterMap (fun acc =>
    if acc.id = debitAccountId ∨ acc.id = creditAccountId then
      some { id := acc.id, balance := acc.balance, currency := strUpper acc.currency,
             balance_before :=
               if includeBalanceBefore then acc.balance_before.getD acc.balance
               else acc.balance }
    else none)

/-- Per-account balance update of the immediate path of executeTransaction. The
amount re-parse cannot be NaN on any path reached after validation; the NaN case is
modelled as 0. -/
def updateAccount (parsedData : ParsedData) (acc : Acct) : Acct :=
  if acc.id = parsedData.debit_account then
    { acc with balance_before := some acc.balance,
               balance := acc.balance - (parseIntJS parsedData.amount).getD 0,
               currency := strUpper acc.currency }
  else if acc.id = parsedData.credit_account then
    { acc with balance_before := some acc.balance,
               balance := acc.balance + (parseIntJS parsedData.amount).getD 0,
               currency := strUpper acc.currency }
  else
    { acc with balance_before := some acc.balance, currency := strUpper acc.currency }

/-- The immediate-versus-deferred decision of executeTransaction: execute now unless
a non-empty execution date lies strictly in the future. -/
def shouldExecuteNow (parsedData : ParsedData) (today : YMD) : Bool :=
  match parsedData.execute_by with
  | none => true
  | some s => if s = ("") then true else isDateInPastOrToday s today

/-- Embedding of executeTransaction: decide immediate versus deferred settlement and,
when immediate, debit and credit the two balances. -/
def executeTransaction (parsedData : ParsedData) (accounts : List Acct) (today : YMD) :
    SettlementResult :=
  if shouldExecuteNow parsedData today then
    { status := ("successful"), status_reason := statusMessage ("AP00"), status_code := ("AP00"),
      accounts := createAccountsResponse (accounts.map (updateAccount parsedData))
        parsedData.debit_account parsedData.credit_account true }
  else
    { status := ("pending"), status_reason := statusMessage ("AP02"), status_code := ("AP02"),
      accounts := createAccountsResponse accounts parsedData.debit_account
        parsedData.credit_account false }

/-- The outward response entity. -/
structure TransactionResponse where
  type : JField String
  amount : JField Int
  currency : JField String
  debit_account : JField String
  credit_account : JField String
  execute_by : JField String
  status : String
  status_reason : String
  status_code : String
  accounts : List AccountView
deriving DecidableEq

/-- A present-or-null JavaScript value from an optional one. -/
def jfieldOfOpt (o : Option String) : JField String :=
  match o with
  | some s => .val s
  | none => .jnull

/-- Embedding of createErrorResponse: the amount is re-parsed to an integer or null,
the currency is upper-cased or null, and every other field passes through as given,
so an undefined argument stays undefined. -/
def createErrorResponse (ty amount currency debitAccount creditAccount executeBy : JField String)
    (status statusReason statusCode : String) (accounts : List AccountView) :
    TransactionResponse :=
  { type := ty,
    amount :=
      match amount with
      | .val a =>
        if a = ("") then .jnull
        else
          match parseIntJS a with
          | some n => .val n
          | none => .jnull
      | _ => .jnull,
    currency :=
      match currency with
      | .val c => if c = ("") then .jnull else .val (strUpper c)
      | _ => .jnull,
    debit_account := debitAccount,
    credit_account := creditAccount, execute_by := executeBy, status := status,
    status_reason := statusReason, status_code := statusCode, accounts := accounts }

/-- Embedding of createSuccessResponse. The amount re-parse cannot be NaN on the
success path; the NaN case is modelled as null. -/
def createSuccessResponse (parsedData : ParsedData) (status statusReason statusCode : String)
    (accounts : List AccountView) : TransactionResponse :=
  { type := .val parsedData.type,
    amount :=
      match parseIntJS parsedData.amount with
      | some n => .val n
      | none => .jnull,
    currency := .val (strUpper parsedData.currency),
    debit_account := .val parsedData.debit_account,
    credit_account := .val parsedData.credit_account,
    execute_by := jfieldOfOpt parsedData.execute_by,
    status := status, status_reason := statusReason, status_code := statusCode,
    accounts := accounts }

/-- Request payload of the core service. -/
structure Payload where
  instruction : Option String
  accounts : Option (List Acct)
deriving DecidableEq

/-- The all-null SY03 fallback response. -/
def sy03Response : TransactionResponse :=
  createErrorResponse .jnull .jnull .jnull .jnull .jnull .jnull ("failed")
    (statusMessage ("SY03")) ("SY03") []

/-- Embedding of paymentInstructionService: the falsiness guards on the payload, then
parse, validate and execute; today is the current UTC calendar date. -/
def paymentInstructionService (payload : Option Payload) (today : YMD) : TransactionResponse :=
  match payload with
  | none => sy03Response
  | some p =>
    if p.accounts = none ∨ p.instruction = none ∨ p.instruction = some ("") then sy03Response
    else
      match parseInstruction (p.instruction.getD ("")) with
      | .err code nullFields =>
        createErrorResponse (if nullFields then .jnull else .undef)
          (if nullFields then .jnull else .undef) (if nullFields then .jnull else .undef)
          (if nullFields then .jnull else .undef) (if nullFields then .jnull else .undef)
          (if nullFields then .jnull else .undef) ("failed") (statusMessage code) code []
      | .ok parsedData =>
        match validateBusinessRules parsedData (p.accounts.getD []) with
        | .fail code =>
          createErrorResponse (.val parsedData.type) (.val parsedData.amount)
            (.val parsedData.currency) (.val parsedData.debit_account)
            (.val parsedData.credit_account) (jfieldOfOpt parsedData.execute_by)
            ("failed") (statusMessage code) code
            (createAccountsResponse (p.accounts.getD []) parsedData.debit_account
              parsedData.credit_account false)
        | .ok =>
          createSuccessResponse parsedData
            (executeTransaction parsedData (p.accounts.getD []) today).status
            (executeTransaction parsedData (p.accounts.getD []) today).status_reason
            (executeTransaction parsedData (p.accounts.getD []) today).status_code
            (executeTransaction parsedData (p.accounts.getD []) today).accounts

/-! Character-level facts about Char.toUpper and the whitespace class. -/

lemma toNat_ofNat_valid (n : Nat) (h : n.isValidChar) : (Char.ofNat n).toNat = n := by
  rw [Char.ofNat, dif_pos h]
  rfl

lemma toUpper_toNat_of_lower (c : Char) (h1 : 97 ≤ c.toNat) (h2 : c.toNat ≤ 122) :
    (Char.toUpper c).toNat = c.toNat - 32 := by
  have hv : (c.toNat - 32).isValidChar := Or.inl (by omega)
  have hup : Char.toUpper c = Char.ofNat (c.toNat - 32) := by
    unfold Char.toUpper
    exact if_pos ⟨h1, h2⟩
  rw [hup]
  exact toNat_ofNat_valid _ hv

lemma toUpper_eq_self_of_not_lower (c : Char) (h : ¬ (97 ≤ c.toNat ∧ c.toNat ≤ 122)) :
    Char.toUpper c = c := by
  unfold Char.toUpper
  exact if_neg h

lemma isWS_cases {c : Char} (h : isWS c = true) :
    c = ' ' ∨ c = '\t' ∨ c = '\n' ∨ c = '\r' ∨ c = '\x0b' ∨ c = '\x0c' ∨ c = '\u00A0' := by
  have h' := h
  simp only [isWS, Bool.or_eq_true, decide_eq_true_eq] at h'
  tauto

lemma isWS_toNat {c : Char} (h : isWS c = true) :
    c.toNat = 32 ∨ c.toNat = 9 ∨ c.toNat = 10 ∨ c.toNat = 13 ∨ c.toNat = 11 ∨
      c.toNat = 12 ∨ c.toNat = 160 := by
  rcases isWS_cases h with rfl | rfl | rfl | rfl | rfl | rfl | rfl <;> decide

lemma isWS_false_of_bounds {c : Char} (h1 : 65 ≤ c.toNat) (h2 : c.toNat ≤ 122) :
    isWS c = false := by
  by_contra hne
  have h : isWS c = true := by simpa using hne
  have := isWS_toNat h
  omega

lemma isWS_toUpper (c : Char) : isWS (Char.toUpper c) = isWS c := by
  by_cases h : 97 ≤ c.toNat ∧ c.toNat ≤ 122
  · have ht := toUpper_toNat_of_lower c h.1 h.2
    rw [@isWS_false_of_bounds (Char.toUpper c) (by omega) (by omega),
      @isWS_false_of_bounds c (by omega) h.2]
  · rw [toUpper_eq_self_of_not_lower c h]

lemma toUpper_idem (c : Char) : Char.toUpper (Char.toUpper c) = Char.toUpper c := by
  by_cases h : 97 ≤ c.toNat ∧ c.toNat ≤ 122
  · have ht := toUpper_toNat_of_lower c h.1 h.2
    exact toUpper_eq_self_of_not_lower _ (by omega)
  · rw [toUpper_eq_self_of_not_lower c h, toUpper_eq_self_of_not_lower c h]

/-! Commutation of upper-casing with the whitespace operations. -/

lemma dropWhile_isWS_map_toUpper (l : List Char) :
    (l.map Char.toUpper).dropWhile isWS = (l.dropWhile isWS).map Char.toUpper := by
  have hfn : (isWS ∘ Char.toUpper) = isWS := funext isWS_toUpper
  rw [List.dropWhile_map, hfn]

lemma collapseGo_map_toUpper (b : Bool) (l : List Char) :
    collapseGo b (l.map Char.toUpper) = (collapseGo b l).map Char.toUpper := by
  induction l generalizing b with
  | nil => rfl
  | cons c cs ih =>
    by_cases hc : isWS c
    · have hcu : isWS (Char.toUpper c) = true := by rw [isWS_toUpper]; exact hc
      cases b <;>
        simp [collapseGo, hc, hcu, ih, show Char.toUpper (' ') = (' ') from rfl]
    · have hcu : isWS (Char.toUpper c) = false := by rw [isWS_toUpper]; simpa using hc
      cases b <;> simp [collapseGo, hc, hcu, ih]

lemma trimL_map_toUpper (l : List Char) :
    trimL (l.map Char.toUpper) = (trimL l).map Char.toUpper := by
  unfold trimL
  rw [dropWhile_isWS_map_toUpper, ← List.map_reverse, dropWhile_isWS_map_toUpper,
    ← List.map_reverse]

/-! Canonical strings: no leading whitespace, and every whitespace character is a
single space followed by a non-whitespace character. Both trim and collapse fix
canonical strings, and collapse followed by trim always produces one. -/

/-- Head of the list is not whitespace (vacuously true for the empty list). -/
def headNotWS : List Char → Bool
  | [] => true
  | c :: _ => ! isWS c

/-- Every whitespace character in the list is a single space followed by a
non-whitespace character. -/
def okRun : List Char → Bool
  | [] => true
  | c :: cs =>
    if isWS c then
      decide (c = (' ')) && headNotWS cs && decide (cs ≠ []) && okRun cs
    else okRun cs

lemma okRun_tail {c : Char} {cs : List Char} (h : okRun (c :: cs) = true) : okRun cs = true := by
  by_cases hc : isWS c <;> simp [okRun, hc] at h <;> tauto

lemma okRun_last {l : List Char} (h : okRun l = true) :
    ∀ c, l.getLast? = some c → isWS c = false := by
  induction l with
  | nil => intro c hc; simp at hc
  | cons c cs ih =>
    intro x hx
    cases cs with
    | nil =>
      simp at hx
      subst hx
      by_cases hc : isWS c
      · simp [okRun, hc] at h
      · simpa using hc
    | cons d ds =>
      rw [List.getLast?_cons_cons] at hx
      exact ih (okRun_tail h) x hx

lemma collapse_eq_self {l : List Char} (h : okRun l = true) : collapseGo false l = l := by
  induction l with
  | nil => rfl
  | cons c cs ih =>
    by_cases hc : isWS c
    · have h' := h
      simp only [okRun, if_pos hc, Bool.and_eq_true, decide_eq_true_eq] at h'
      obtain ⟨⟨⟨hsp, hhead⟩, hne⟩, hok⟩ := h'
      cases cs with
      | nil => exact absurd rfl hne
      | cons d ds =>
        have hd : isWS d = false := by simpa [headNotWS] using hhead
        have hrec : collapseGo false (d :: ds) = d :: ds := ih hok
        have h5 : d :: collapseGo false ds = d :: ds := by
          rw [show d :: collapseGo false ds = collapseGo false (d :: ds) by
            simp [collapseGo, hd]]
          exact hrec
        have hds : collapseGo false ds = ds := by
          injection h5
        subst hsp
        simp [collapseGo, hc, hd, hds]
    · have hok : okRun cs = true := okRun_tail h
      simp [collapseGo, hc, ih hok]

lemma trimL_eq_self {l : List Char} (hh : headNotWS l = true) (hok : okRun l = true) :
    trimL l = l := by
  have h1 : l.dropWhile isWS = l := by
    cases l with
    | nil => rfl
    | cons c cs =>
      have hc : isWS c = false := by simpa [headNotWS] using hh
      rw [List.dropWhile_cons, if_neg (by simp [hc])]
  have h2 : l.reverse.dropWhile isWS = l.reverse := by
    cases hr : l.reverse with
    | nil => simp
    | cons c cs =>
      have hlast : l.getLast? = some c := by
        rw [List.getLast?_eq_head?_reverse, hr]
        rfl
      have hcws : isWS c = false := okRun_last hok _ hlast
      rw [List.dropWhile_cons, if_neg (by simp [hcws])]
  unfold trimL
  rw [h1, h2, List.reverse_reverse]

lemma collapseGo_true_eq (l : List Char) :
    collapseGo true l = collapseGo false (l.dropWhile isWS) := by
  induction l with
  | nil => rfl
  | cons c cs ih =>
    by_cases hc : isWS c
    · simp [collapseGo, hc, ih, List.dropWhile_cons]
    · simp [collapseGo, hc, List.dropWhile_cons]

lemma headNotWS_collapse (l : List Char) (h : headNotWS l = true) :
    headNotWS (collapseGo false l) = true := by
  cases l with
  | nil => rfl
  | cons c cs =>
    have hc : isWS c = false := by simpa [headNotWS] using h
    simp [collapseGo, hc, headNotWS]

lemma okRun_collapse_aux (n : Nat) :
    ∀ l : List Char, l.length ≤ n → (∀ c, l.getLast? = some c → isWS c = false) →
      okRun (collapseGo false l) = true := by
  induction n with
  | zero =>
    intro l hlen _
    have : l = [] := List.eq_nil_of_length_eq_zero (Nat.le_zero.mp hlen)
    subst this
    rfl
  | succ n ih =>
    intro l hlen hlast
    cases l with
    | nil => rfl
    | cons c cs =>
      by_cases hc : isWS c
      · cases cs with
        | nil => exact absurd (hlast c rfl) (by simp [hc])
        | cons d ds =>
          have hlast' : ∀ x, (d :: ds).getLast? = some x → isWS x = false := fun x hx =>
            hlast x (by rw [List.getLast?_cons_cons]; exact hx)
          have hrne : (d :: ds).dropWhile isWS ≠ [] := by
            intro h0
            have hall := List.dropWhile_eq_nil_iff.mp h0
            have hx : (d :: ds).getLast? = some ((d :: ds).getLast (by simp)) :=
              List.getLast?_eq_getLast _ _
            have hmem : (d :: ds).getLast (by simp) ∈ (d :: ds) := List.getLast_mem _
            have := hlast' _ hx
            rw [hall _ hmem] at this
            exact Bool.noConfusion this
          obtain ⟨e, es, hres⟩ : ∃ e es, (d :: ds).dropWhile isWS = e :: es := by
            cases hres : (d :: ds).dropWhile isWS with
            | nil => exact absurd hres hrne
            | cons e es => exact ⟨e, es, rfl⟩
          have hews : isWS e = false := by
            have h3 := List.head?_dropWhile_not isWS (d :: ds)
            rw [hres] at h3
            simpa using h3
          have hlastr : ∀ x, (e :: es).getLast? = some x → isWS x = false := by
            intro x hx
            have hsuf : (d :: ds).dropWhile isWS <:+ (d :: ds) := List.dropWhile_suffix _
            obtain ⟨t, ht⟩ := hsuf
            apply hlast'
            rw [← ht, hres]
            rw [List.getLast?_append_cons]
            exact hx
          have hsz : (e :: es).length < (c :: d :: ds).length := by
            have h4 : ((d :: ds).dropWhile isWS).length ≤ (d :: ds).length :=
              (List.dropWhile_suffix isWS).sublist.length_le
            rw [hres] at h4
            simpa using Nat.lt_succ_of_le h4
          have hok : okRun (collapseGo false (e :: es)) = true := by
            refine ih (e :: es) ?_ hlastr
            have := hlen
            simp only [List.length_cons] at this hsz ⊢
            omega
          have hcol : collapseGo false (c :: d :: ds) = (' ') :: collapseGo false (e :: es) := by
            rw [show collapseGo false (c :: d :: ds) = (' ') :: collapseGo true (d :: ds) by
              simp [collapseGo, hc]]
            rw [collapseGo_true_eq, hres]
          rw [hcol]
          rw [show collapseGo false (e :: es) = e :: collapseGo false es by
            simp [collapseGo, hews]]
          rw [show collapseGo false (e :: es) = e :: collapseGo false es by
            simp [collapseGo, hews]] at hok
          have hok2 : okRun (collapseGo false es) = true := by
            simpa [okRun, hews] using hok
          simp [okRun, hews, hok2, headNotWS, show isWS (' ') = true by decide]
      · have hlast' : ∀ x, cs.getLast? = some x → isWS x = false := by
          intro x hx
          cases cs with
          | nil => simp at hx
          | cons d ds => exact hlast x (by rw [List.getLast?_cons_cons]; exact hx)
        have hok : okRun (collapseGo false cs) = true := by
          refine ih cs ?_ hlast'
          have := hlen
          simp only [List.length_cons] at this
          omega
        rw [show collapseGo false (c :: cs) = c :: collapseGo false cs by
          simp [collapseGo, hc]]
        simpa [okRun, hc] using hok

lemma okRun_collapse (l : List Char)
    (hlast : ∀ c, l.getLast? = some c → isWS c = false) :
    okRun (collapseGo false l) = true :=
  okRun_collapse_aux l.length l le_rfl hlast

lemma headNotWS_dropWhile (l : List Char) : headNotWS (l.dropWhile isWS) = true := by
  have h := List.head?_dropWhile_not isWS l
  cases hd : l.dropWhile isWS with
  | nil => rfl
  | cons c cs =>
    rw [hd] at h
    simp only [List.head?_cons] at h
    simp [headNotWS, h]

lemma headNotWS_trimL (l : List Char) : headNotWS (trimL l) = true := by
  have hpre : trimL l <+: l.dropWhile isWS := by
    have h0 : (l.dropWhile isWS).reverse.dropWhile isWS <:+ (l.dropWhile isWS).reverse :=
      List.dropWhile_suffix _
    have h1 := List.reverse_prefix.mpr h0
    rwa [List.reverse_reverse] at h1
  cases ht : trimL l with
  | nil => rfl
  | cons c cs =>
    obtain ⟨t, htl⟩ := hpre
    rw [ht] at htl
    have hh := headNotWS_dropWhile l
    rw [← htl] at hh
    simpa [headNotWS] using hh

lemma lastNotWS_trimL (l : List Char) :
    ∀ c, (trimL l).getLast? = some c → isWS c = false := by
  intro c hc
  unfold trimL at hc
  rw [List.getLast?_eq_head?_reverse, List.reverse_reverse] at hc
  have h := List.head?_dropWhile_not isWS ((l.dropWhile isWS).reverse)
  rw [hc] at h
  simpa using h

lemma trim_collapse_fix (l : List Char) :
    trimL (collapseGo false (trimL l)) = collapseGo false (trimL l) ∧
      collapseGo false (collapseGo false (trimL l)) = collapseGo false (trimL l) := by
  have hok : okRun (collapseGo false (trimL l)) = true := okRun_collapse _ (lastNotWS_trimL l)
  have hh : headNotWS (collapseGo false (trimL l)) = true :=
    headNotWS_collapse _ (headNotWS_trimL l)
  exact ⟨trimL_eq_self hh hok, collapse_eq_self hok⟩

lemma map_toUpper_idem (l : List Char) :
    (l.map Char.toUpper).map Char.toUpper = l.map Char.toUpper := by
  rw [List.map_map]
  exact List.map_congr_left (fun c _ => toUpper_idem c)

lemma normalizeL_idem (l : List Char) : normalizeL (normalizeL l) = normalizeL l := by
  show (collapseL (trimL ((collapseL (trimL l)).map Char.toUpper))).map Char.toUpper =
    (collapseL (trimL l)).map Char.toUpper
  unfold collapseL
  rw [trimL_map_toUpper, collapseGo_map_toUpper, map_toUpper_idem,
    (trim_collapse_fix l).1, (trim_collapse_fix l).2]

/-- C9: normalization (trim, collapse internal whitespace runs to single spaces,
upper-case) is idempotent, so the derived token sequence is stable under
re-application. -/
theorem c9_normalization_idempotent (s : String) :
    normalize (normalize s) = normalize s ∧ tokenize (normalize s) = tokenize s := by
  constructor
  · show String.mk (normalizeL (String.mk (normalizeL s.data)).data) = _
    rw [show (String.mk (normalizeL s.data)).data = normalizeL s.data from rfl,
      normalizeL_idem]
    rfl
  · show (splitChar (' ') (normalizeL (String.mk (normalizeL s.data)).data)).map String.mk = _
    rw [show (String.mk (normalizeL s.data)).data = normalizeL s.data from rfl,
      normalizeL_idem]
    rfl

/-! The business-rule validator: AM01 characterization and the ordered cascade. -/

/-- C6: rule AM01 fails exactly when the amount string does not parse as an integer
under JavaScript parseInt, is not strictly positive, or contains a decimal point; in
particular a decimal point always yields AM01, and any amount that passes the rule
denotes a strictly positive integer. -/
theorem c6_amount_rule (pd : ParsedData) (accounts : List Acct) :
    (validateBusinessRules pd accounts = .fail ("AM01") ↔
      (parseIntJS pd.amount = none ∨ (parseIntJS pd.amount).getD 0 ≤ 0 ∨
        pd.amount.data.contains ('.') = true)) ∧
    (validateBusinessRules pd accounts ≠ .fail ("AM01") →
      ∃ n : Int, parseIntJS pd.amount = some n ∧ 0 < n ∧
        pd.amount.data.contains ('.') = false) := by
  have hempty : pd.amount = ("") → parseIntJS pd.amount = none := by
    intro h
    rw [h]
    rfl
  have hmain : validateBusinessRules pd accounts = .fail ("AM01") ↔
      (pd.amount = ("") ∨ parseIntJS pd.amount = none ∨
        (parseIntJS pd.amount).getD 0 ≤ 0 ∨ pd.amount.data.contains ('.') = true) := by
    unfold validateBusinessRules
    split
    · rename_i h
      exact iff_of_true rfl h
    · rename_i h
      refine iff_of_false ?_ h
      intro hcontra
      repeat' split at hcontra
      all_goals exact absurd hcontra (by decide)
  constructor
  · rw [hmain]
    constructor
    · rintro (h | h | h | h)
      · exact Or.inl (hempty h)
      · exact Or.inl h
      · exact Or.inr (Or.inl h)
      · exact Or.inr (Or.inr h)
    · rintro (h | h | h)
      · exact Or.inr (Or.inl h)
      · exact Or.inr (Or.inr (Or.inl h))
      · exact Or.inr (Or.inr (Or.inr h))
  · intro hne
    have hnc : ¬ (pd.amount = ("") ∨ parseIntJS pd.amount = none ∨
        (parseIntJS pd.amount).getD 0 ≤ 0 ∨ pd.amount.data.contains ('.') = true) :=
      fun hc => hne (hmain.mpr hc)
    push_neg at hnc
    obtain ⟨h1, h2, h3, h4⟩ := hnc
    cases hp : parseIntJS pd.amount with
    | none => exact absurd hp h2
    | some n =>
      refine ⟨n, rfl, ?_, ?_⟩
      · rw [hp] at h3
        simp only [Option.getD_some] at h3
        omega
      · simpa using h4

/-- Witness for C6: the amount 10.5 contains a decimal point and is rejected with
AM01 even though it parses to the positive integer 10. -/
theorem c6_amount_rule_witness :
    validateBusinessRules ⟨("DEBIT"), ("10.5"), ("NGN"), ("A1"), ("B2"), none⟩ [] =
      .fail ("AM01") :=
  (c6_amount_rule ⟨("DEBIT"), ("10.5"), ("NGN"), ("A1"), ("B2"), none⟩ []).1.mpr
    (Or.inr (Or.inr (by decide)))

/-- Failure flag of the spec rule AM01: the amount must parse as an integer, be
strictly positive, and contain no decimal point. -/
def specAmountBad (pd : ParsedData) : Bool :=
  (match parseIntJS pd.amount with
   | none => true
   | some n => decide (n ≤ 0)) || pd.amount.data.contains ('.')

/-- Failure flag of the spec rule CU02: the currency, case-insensitively, must be in
the supported set. -/
def specCurrencyBad (pd : ParsedData) : Bool :=
  ! SUPPORTED_CURRENCIES.contains (strUpper pd.currency)

/-- Failure flag of the spec rule AC04: both identifiers match the allowed character
class. -/
def specIdBad (pd : ParsedData) : Bool :=
  ! (isValidAccountId pd.debit_account && isValidAccountId pd.credit_account)

/-- Failure flag of the spec rule AC02: the two identifiers must differ. -/
def specSelfTransfer (pd : ParsedData) : Bool :=
  pd.debit_account == pd.credit_account

/-- Failure flag of the spec rule AC03: both identifiers resolve to accounts of the
snapshot. -/
def specMissingAccount (pd : ParsedData) (accounts : List Acct) : Bool :=
  ! (accounts.any (fun acc => acc.id == pd.debit_account) &&
     accounts.any (fun acc => acc.id == pd.credit_account))

/-- Failure flag of the spec rule CU01: both account currencies and the instruction
currency agree case-insensitively. -/
def specCurrencyMismatch (pd : ParsedData) (accounts : List Acct) : Bool :=
  match accounts.find? (fun acc => acc.id == pd.debit_account),
        accounts.find? (fun acc => acc.id == pd.credit_account) with
  | some debitAcc, some creditAcc =>
    ! (strUpper debitAcc.currency == strUpper creditAcc.currency &&
       strUpper debitAcc.currency == strUpper pd.currency)
  | _, _ => false

/-- Failure flag of the spec rule AC01: the debit balance covers the amount. -/
def specInsufficientFunds (pd : ParsedData) (accounts : List Acct) : Bool :=
  match accounts.find? (fun acc => acc.id == pd.debit_account) with
  | some debitAcc => decide (debitAcc.balance < (parseIntJS pd.amount).getD 0)
  | none => false

/-- Failure flag of the spec rule DT01: a present execution date must be a valid
calendar date. -/
def specBadDate (pd : ParsedData) : Bool :=
  match pd.execute_by with
  | some e => decide (e ≠ ("")) && ! isValidDate e
  | none => false

/-- Modelled from the spec: the ordered rule list AM01, CU02, AC04, AC02, AC03, CU01,
AC01, DT01 of the validation cascade. -/
def specOrderedRules (pd : ParsedData) (accounts : List Acct) : List (String × Bool) :=
  [(("AM01"), specAmountBad pd), (("CU02"), specCurrencyBad pd), (("AC04"), specIdBad pd),
   (("AC02"), specSelfTransfer pd), (("AC03"), specMissingAccount pd accounts),
   (("CU01"), specCurrencyMismatch pd accounts), (("AC01"), specInsufficientFunds pd accounts),
   (("DT01"), specBadDate pd)]

/-- Code of the first failing rule of the ordered cascade, if any. -/
def firstFailingRule (pd : ParsedData) (accounts : List Acct) : Option String :=
  ((specOrderedRules pd accounts).find? (fun r => r.2)).map (fun r => r.1)

lemma specAmountBad_iff (pd : ParsedData) :
    specAmountBad pd = true ↔
      (pd.amount = ("") ∨ parseIntJS pd.amount = none ∨
        (parseIntJS pd.amount).getD 0 ≤ 0 ∨ pd.amount.data.contains ('.') = true) := by
  unfold specAmountBad
  cases hp : parseIntJS pd.amount with
  | none => simp [hp]
  | some n =>
    by_cases he : pd.amount = ("")
    · rw [he] at hp
      rw [show parseIntJS ("") = none by decide] at hp
      exact Option.noConfusion hp
    · simp [hp, he]

lemma specCurrencyBad_iff (pd : ParsedData) :
    specCurrencyBad pd = true ↔
      (pd.currency = ("") ∨ ¬ SUPPORTED_CURRENCIES.contains (strUpper pd.currency)) := by
  unfold specCurrencyBad
  by_cases hc : pd.currency = ("")
  · rw [hc]
    simp [SUPPORTED_CURRENCIES, strUpper]
  · simp [hc]

lemma specIdBad_iff (pd : ParsedData) :
    specIdBad pd = true ↔
      ¬ (isValidAccountId pd.debit_account ∧ isValidAccountId pd.credit_account) := by
  unfold specIdBad
  cases h1 : isValidAccountId pd.debit_account <;>
    cases h2 : isValidAccountId pd.credit_account <;> simp

lemma any_eq_isSome_find? (accounts : List Acct) (p : Acct → Bool) :
    accounts.any p = (accounts.find? p).isSome := by
  cases h : accounts.find? p with
  | none =>
    have h0 := List.find?_eq_none.mp h
    simp only [Option.isSome_none]
    rw [← Bool.not_eq_true, List.any_eq_true]
    rintro ⟨x, hx, hpx⟩
    exact h0 x hx hpx
  | some a =>
    have hmem := List.mem_of_find?_eq_some h
    have hp := List.find?_some h
    simp only [Option.isSome_some]
    rw [List.any_eq_true]
    exact ⟨a, hmem, hp⟩

lemma specMissingAccount_iff (pd : ParsedData) (accounts : List Acct) :
    specMissingAccount pd accounts = true ↔
      (accounts.find? (fun acc => acc.id == pd.debit_account) = none ∨
       accounts.find? (fun acc => acc.id == pd.credit_account) = none) := by
  unfold specMissingAccount
  rw [any_eq_isSome_find?, any_eq_isSome_find?]
  cases accounts.find? (fun acc => acc.id == pd.debit_account) <;>
    cases accounts.find? (fun acc => acc.id == pd.credit_account) <;> simp

lemma validate_eq_cascade : ∀ (pd : ParsedData) (accounts : List Acct),
    validateBusinessRules pd accounts =
      match firstFailingRule pd accounts with
      | some code => .fail code
      | none => .ok := by
    intro pd accounts
    by_cases h1 : pd.amount = ("") ∨ parseIntJS pd.amount = none ∨
        (parseIntJS pd.amount).getD 0 ≤ 0 ∨ pd.amount.data.contains ('.') = true
    · have hb1 : specAmountBad pd = true := (specAmountBad_iff pd).mpr h1
      rw [show validateBusinessRules pd accounts = .fail ("AM01") by
        simp only [validateBusinessRules, if_pos h1]]
      simp [firstFailingRule, specOrderedRules, List.find?, hb1]
    · have hb1 : specAmountBad pd = false := by
        rw [← Bool.not_eq_true, specAmountBad_iff]
        exact h1
      by_cases h2 : pd.currency = ("") ∨ ¬ SUPPORTED_CURRENCIES.contains (strUpper pd.currency)
      · have hb2 : specCurrencyBad pd = true := (specCurrencyBad_iff pd).mpr h2
        rw [show validateBusinessRules pd accounts = .fail ("CU02") by
          simp only [validateBusinessRules, if_neg h1, if_pos h2]]
        simp [firstFailingRule, specOrderedRules, List.find?, hb1, hb2]
      · have hb2 : specCurrencyBad pd = false := by
          rw [← Bool.not_eq_true, specCurrencyBad_iff]
          exact h2
        by_cases h3 : ¬ (isValidAccountId pd.debit_account ∧ isValidAccountId pd.credit_account)
        · have hb3 : specIdBad pd = true := (specIdBad_iff pd).mpr h3
          rw [show validateBusinessRules pd accounts = .fail ("AC04") by
            simp only [validateBusinessRules, if_neg h1, if_neg h2, if_pos h3]]
          simp [firstFailingRule, specOrderedRules, List.find?, hb1, hb2, hb3]
        · have hb3 : specIdBad pd = false := by
            rw [← Bool.not_eq_true, specIdBad_iff]
            exact h3
          by_cases h4 : pd.debit_account = pd.credit_account
          · have hb4 : specSelfTransfer pd = true := by
              unfold specSelfTransfer
              exact beq_iff_eq.mpr h4
            rw [show validateBusinessRules pd accounts = .fail ("AC02") by
              simp only [validateBusinessRules, if_neg h1, if_neg h2, if_neg h3, if_pos h4]]
            simp [firstFailingRule, specOrderedRules, List.find?, hb1, hb2, hb3, hb4]
          · have hb4 : specSelfTransfer pd = false := by
              unfold specSelfTransfer
              simpa using h4
            cases hd : accounts.find? (fun acc => acc.id == pd.debit_account) with
            | none =>
              have hb5 : specMissingAccount pd accounts = true :=
                (specMissingAccount_iff pd accounts).mpr (Or.inl hd)
              rw [show validateBusinessRules pd accounts = .fail ("AC03") by
                simp only [validateBusinessRules, if_neg h1, if_neg h2, if_neg h3, if_neg h4,
                  hd]]
              simp [firstFailingRule, specOrderedRules, List.find?, hb1, hb2, hb3, hb4, hb5]
            | some debitAcc =>
              cases hc : accounts.find? (fun acc => acc.id == pd.credit_account) with
              | none =>
                have hb5 : specMissingAccount pd accounts = true :=
                  (specMissingAccount_iff pd accounts).mpr (Or.inr hc)
                rw [show validateBusinessRules pd accounts = .fail ("AC03") by
                  simp only [validateBusinessRules, if_neg h1, if_neg h2, if_neg h3, if_neg h4,
                    hd, hc]]
                simp [firstFailingRule, specOrderedRules, List.find?, hb1, hb2, hb3, hb4, hb5]
              | some creditAcc =>
                have hb5 : specMissingAccount pd accounts = false := by
                  rw [← Bool.not_eq_true, specMissingAccount_iff, hd, hc]
                  simp
                by_cases h6 : strUpper debitAcc.currency ≠ strUpper creditAcc.currency ∨
                    strUpper debitAcc.currency ≠ strUpper pd.currency
                · have hb6 : specCurrencyMismatch pd accounts = true := by
                    unfold specCurrencyMismatch
                    rw [hd, hc]
                    simpa using h6
                  rw [show validateBusinessRules pd accounts = .fail ("CU01") by
                    simp only [validateBusinessRules, if_neg h1, if_neg h2, if_neg h3, if_neg h4,
                      hd, hc, if_pos h6]]
                  simp [firstFailingRule, specOrderedRules, List.find?, hb1, hb2, hb3, hb4,
                    hb5, hb6]
                · have hb6 : specCurrencyMismatch pd accounts = false := by
                    unfold specCurrencyMismatch
                    rw [hd, hc]
                    simpa using h6
                  by_cases h7 : debitAcc.balance < (parseIntJS pd.amount).getD 0
                  · have hb7 : specInsufficientFunds pd accounts = true := by
                      unfold specInsufficientFunds
                      rw [hd]
                      simpa using h7
                    rw [show validateBusinessRules pd accounts = .fail ("AC01") by
                      simp only [validateBusinessRules, if_neg h1, if_neg h2, if_neg h3,
                        if_neg h4, hd, hc, if_neg h6, if_pos h7]]
                    simp [firstFailingRule, specOrderedRules, List.find?, hb1, hb2, hb3, hb4,
                      hb5, hb6, hb7]
                  · have hb7 : specInsufficientFunds pd accounts = false := by
                      unfold specInsufficientFunds
                      rw [hd]
                      simpa using h7
                    by_cases h8 : (match pd.execute_by with
                        | some e => decide (e ≠ ("")) && ! isValidDate e
                        | none => false) = true
                    · have hb8 : specBadDate pd = true := h8
                      rw [show validateBusinessRules pd accounts = .fail ("DT01") by
                        simp only [validateBusinessRules, if_neg h1, if_neg h2, if_neg h3,
                          if_neg h4, hd, hc, if_neg h6, if_neg h7, if_pos h8]]
                      simp [firstFailingRule, specOrderedRules, List.find?, hb1, hb2, hb3,
                        hb4, hb5, hb6, hb7, hb8]
                    · have hb8 : specBadDate pd = false := by
                        unfold specBadDate
                        simpa using h8
                      rw [show validateBusinessRules pd accounts = .ok by
                        simp only [validateBusinessRules, if_neg h1, if_neg h2, if_neg h3,
                          if_neg h4, hd, hc, if_neg h6, if_neg h7, if_neg h8]]
                      simp [firstFailingRule, specOrderedRules, List.find?, hb1, hb2, hb3,
                        hb4, hb5, hb6, hb7, hb8]
/-- C4: the validator is exactly the ordered first-failure cascade AM01, CU02, AC04,
AC02, AC03, CU01, AC01, DT01, and in particular a self-transfer with well-formed
amount, currency and identifiers yields AC02 for every account snapshot. -/
theorem c4_ordered_cascade :
    (∀ pd accounts, validateBusinessRules pd accounts =
      match firstFailingRule pd accounts with
      | some code => .fail code
      | none => .ok) ∧
    (∀ pd accounts, specAmountBad pd = false → specCurrencyBad pd = false →
      specIdBad pd = false → pd.debit_account = pd.credit_account →
      validateBusinessRules pd accounts = .fail ("AC02")) := by
  refine ⟨validate_eq_cascade, ?_⟩
  intro pd accounts hb1 hb2 hb3 hself
  rw [validate_eq_cascade pd accounts]
  have hb4 : specSelfTransfer pd = true := by
    unfold specSelfTransfer
    exact beq_iff_eq.mpr hself
  simp [firstFailingRule, specOrderedRules, List.find?, hb1, hb2, hb3, hb4]

/-- Witness for C4 at the spec example: a self-transfer on account X with a valid
amount and currency fails with AC02 even against an empty snapshot. -/
theorem c4_ordered_cascade_witness :
    validateBusinessRules ⟨("CREDIT"), ("100"), ("USD"), ("X"), ("X"), none⟩ [] =
      .fail ("AC02") :=
  c4_ordered_cascade.2 ⟨("CREDIT"), ("100"), ("USD"), ("X"), ("X"), none⟩ []
    (by decide) (by decide) (by decide) rfl

/-! Facts about the settlement executor and the validator inversion. -/

lemma mem_createAccountsResponse {accounts : List Acct} {d c : String} {b : Bool}
    {v : AccountView} :
    v ∈ createAccountsResponse accounts d c b ↔
      ∃ a ∈ accounts, (a.id = d ∨ a.id = c) ∧
        v = { id := a.id, balance := a.balance, currency := strUpper a.currency,
              balance_before := if b then a.balance_before.getD a.balance else a.balance } := by
  unfold createAccountsResponse
  simp only [List.mem_filterMap, Option.ite_none_right_eq_some]
  constructor
  · rintro ⟨a, ha, hid, hv⟩
    exact ⟨a, ha, hid, (Option.some.inj hv).symm⟩
  · rintro ⟨a, ha, hid, hv⟩
    exact ⟨a, ha, hid, congrArg some hv.symm⟩

lemma executeTransaction_now {pd : ParsedData} {accounts : List Acct} {today : YMD}
    (h : shouldExecuteNow pd today = true) :
    executeTransaction pd accounts today =
      { status := ("successful"), status_reason := statusMessage ("AP00"),
        status_code := ("AP00"),
        accounts := createAccountsResponse (accounts.map (updateAccount pd))
          pd.debit_account pd.credit_account true } := by
  unfold executeTransaction
  rw [if_pos h]

lemma executeTransaction_later {pd : ParsedData} {accounts : List Acct} {today : YMD}
    (h : shouldExecuteNow pd today = false) :
    executeTransaction pd accounts today =
      { status := ("pending"), status_reason := statusMessage ("AP02"),
        status_code := ("AP02"),
        accounts := createAccountsResponse accounts pd.debit_account
          pd.credit_account false } := by
  unfold executeTransaction
  rw [if_neg (by simp [h])]

lemma executeTransaction_successful_iff {pd : ParsedData} {accounts : List Acct} {today : YMD} :
    (executeTransaction pd accounts today).status = ("successful") ↔
      shouldExecuteNow pd today = true := by
  cases h : shouldExecuteNow pd today
  · rw [executeTransaction_later h]
    simp
  · rw [executeTransaction_now h]
    simp

lemma executeTransaction_pending_iff {pd : ParsedData} {accounts : List Acct} {today : YMD} :
    (executeTransaction pd accounts today).status = ("pending") ↔
      shouldExecuteNow pd today = false := by
  cases h : shouldExecuteNow pd today
  · rw [executeTransaction_later h]
    simp
  · rw [executeTransaction_now h]
    simp

lemma firstFailingRule_of_ok {pd : ParsedData} {accounts : List Acct}
    (h : validateBusinessRules pd accounts = .ok) :
    ∀ x ∈ specOrderedRules pd accounts, ¬ (x.2 = true) := by
  have hcas := validate_eq_cascade pd accounts
  rw [h] at hcas
  have hnone : firstFailingRule pd accounts = none := by
    cases hf : firstFailingRule pd accounts with
    | none => rfl
    | some code =>
      rw [hf] at hcas
      exact absurd hcas (by simp)
  have hfind : (specOrderedRules pd accounts).find? (fun r => r.2) = none := by
    cases hf2 : (specOrderedRules pd accounts).find? (fun r => r.2) with
    | none => rfl
    | some r =>
      unfold firstFailingRule at hnone
      rw [hf2] at hnone
      exact absurd hnone (by simp)
  exact fun x hx hx2 => by
    have := List.find?_eq_none.mp hfind x hx
    simp [hx2] at this

lemma validate_ok_facts {pd : ParsedData} {accounts : List Acct}
    (h : validateBusinessRules pd accounts = .ok) :
    (∃ n : Int, parseIntJS pd.amount = some n ∧ 0 < n) ∧
    pd.debit_account ≠ pd.credit_account ∧
    (∃ debitAcc, accounts.find? (fun acc => acc.id == pd.debit_account) = some debitAcc) ∧
    (∃ creditAcc, accounts.find? (fun acc => acc.id == pd.credit_account) = some creditAcc) ∧
    (pd.execute_by = none ∨
      ∃ e, pd.execute_by = some e ∧ (e = ("") ∨ isValidDate e = true)) := by
  have hflags := firstFailingRule_of_ok h
  have hA : specAmountBad pd = false := by
    have := hflags (("AM01"), specAmountBad pd) (by simp [specOrderedRules])
    simpa using this
  have hS : specSelfTransfer pd = false := by
    have := hflags (("AC02"), specSelfTransfer pd) (by simp [specOrderedRules])
    simpa using this
  have hM : specMissingAccount pd accounts = false := by
    have := hflags (("AC03"), specMissingAccount pd accounts) (by simp [specOrderedRules])
    simpa using this
  have hD : specBadDate pd = false := by
    have := hflags (("DT01"), specBadDate pd) (by simp [specOrderedRules])
    simpa using this
  refine ⟨?_, ?_, ?_, ?_, ?_⟩
  · have hA' : ¬ (pd.amount = ("") ∨ parseIntJS pd.amount = none ∨
        (parseIntJS pd.amount).getD 0 ≤ 0 ∨ pd.amount.data.contains ('.') = true) := by
      rw [← specAmountBad_iff]
      simp [hA]
    push_neg at hA'
    obtain ⟨_, h2, h3, _⟩ := hA'
    cases hp : parseIntJS pd.amount with
    | none => exact absurd hp h2
    | some n =>
      refine ⟨n, rfl, ?_⟩
      rw [hp] at h3
      simp only [Option.getD_some] at h3
      omega
  · intro heq
    unfold specSelfTransfer at hS
    rw [heq] at hS
    simp at hS
  · have hM' : ¬ (accounts.find? (fun acc => acc.id == pd.debit_account) = none ∨
        accounts.find? (fun acc => acc.id == pd.credit_account) = none) := by
      rw [← specMissingAccount_iff]
      simp [hM]
    push_neg at hM'
    exact Option.ne_none_iff_exists'.mp hM'.1
  · have hM' : ¬ (accounts.find? (fun acc => acc.id == pd.debit_account) = none ∨
        accounts.find? (fun acc => acc.id == pd.credit_account) = none) := by
      rw [← specMissingAccount_iff]
      simp [hM]
    push_neg at hM'
    exact Option.ne_none_iff_exists'.mp hM'.2
  · cases he : pd.execute_by with
    | none => exact Or.inl rfl
    | some e =>
      right
      refine ⟨e, rfl, ?_⟩
      unfold specBadDate at hD
      rw [he] at hD
      by_cases he2 : e = ("")
      · exact Or.inl he2
      · right
        simpa [he2] using hD

/-- C10: a trailing ON anchor with no following token parses successfully with a null
execution date, the DT01 rule cannot fire on a null date, and a null date always
settles immediately. -/
theorem c10_trailing_on :
    (∀ parts orig d, (debitAnchors parts).kOn = (parts.length : Int) - 1 →
      parseDebitInstruction parts orig = .ok d → d.execute_by = none) ∧
    (∀ parts orig d, (creditAnchors parts).kOn = (parts.length : Int) - 1 →
      parseCreditInstruction parts orig = .ok d → d.execute_by = none) ∧
    (∀ pd accounts, pd.execute_by = none →
      validateBusinessRules pd accounts ≠ .fail ("DT01")) ∧
    (∀ pd accounts today, pd.execute_by = none →
      (executeTransaction pd accounts today).status = ("successful")) := by
  refine ⟨?_, ?_, ?_, ?_⟩
  · intro parts orig d hon hok
    unfold parseDebitInstruction at hok
    split at hok
    · exact absurd hok (by simp)
    · split at hok
      · exact absurd hok (by simp)
      · rw [if_neg (by
          rintro ⟨_, hlt⟩
          rw [hon] at hlt
          omega)] at hok
        have := InnerResult.ok.inj hok
        rw [← this]
  · intro parts orig d hon hok
    unfold parseCreditInstruction at hok
    split at hok
    · exact absurd hok (by simp)
    · split at hok
      · exact absurd hok (by simp)
      · rw [if_neg (by
          rintro ⟨_, hlt⟩
          rw [hon] at hlt
          omega)] at hok
        have := InnerResult.ok.inj hok
        rw [← this]
  · intro pd accounts hnone hcontra
    unfold validateBusinessRules at hcontra
    rw [hnone] at hcontra
    repeat' split at hcontra
    all_goals first
    | exact absurd hcontra (by decide)
    | simp_all
  · intro pd accounts today hnone
    rw [executeTransaction_successful_iff]
    unfold shouldExecuteNow
    rw [hnone]

/-- Witness for C10: the DEBIT example with a bare trailing ON parses with a null
execution date, and the executor settles a null-date instruction immediately. -/
theorem c10_trailing_on_witness :
    (⟨("500"), ("NGN"), ("A1"), ("B2"), none⟩ : InnerData).execute_by = none ∧
    (executeTransaction ⟨("DEBIT"), ("500"), ("NGN"), ("A1"), ("B2"), none⟩ []
      ⟨2026, 10, 12⟩).status = ("successful") :=
  ⟨c10_trailing_on.1
      (tokenize ("DEBIT 500 NGN FROM ACCOUNT A1 FOR CREDIT TO ACCOUNT B2 ON"))
      ("DEBIT 500 NGN FROM ACCOUNT A1 FOR CREDIT TO ACCOUNT B2 ON")
      ⟨("500"), ("NGN"), ("A1"), ("B2"), none⟩ (by decide) (by decide),
   c10_trailing_on.2.2.2 ⟨("DEBIT"), ("500"), ("NGN"), ("A1"), ("B2"), none⟩ []
      ⟨2026, 10, 12⟩ rfl⟩

lemma service_validation_failure {p : Payload} {s : String} {pd : ParsedData}
    {accounts : List Acct} {today : YMD} {code : String}
    (hp : p.instruction = some s) (ha : p.accounts = some accounts)
    (hs : s ≠ (""))
    (hparse : parseInstruction s = .ok pd)
    (hval : validateBusinessRules pd accounts = .fail code) :
    paymentInstructionService (some p) today =
      createErrorResponse (.val pd.type) (.val pd.amount) (.val pd.currency)
        (.val pd.debit_account) (.val pd.credit_account) (jfieldOfOpt pd.execute_by)
        ("failed") (statusMessage code) code
        (createAccountsResponse accounts pd.debit_account pd.credit_account false) := by
  simp [paymentInstructionService, hp, ha, hs, hparse, hval]

lemma service_validation_ok {p : Payload} {s : String} {pd : ParsedData}
    {accounts : List Acct} {today : YMD}
    (hp : p.instruction = some s) (ha : p.accounts = some accounts)
    (hs : s ≠ (""))
    (hparse : parseInstruction s = .ok pd)
    (hval : validateBusinessRules pd accounts = .ok) :
    paymentInstructionService (some p) today =
      createSuccessResponse pd (executeTransaction pd accounts today).status
        (executeTransaction pd accounts today).status_reason
        (executeTransaction pd accounts today).status_code
        (executeTransaction pd accounts today).accounts := by
  simp [paymentInstructionService, hp, ha, hs, hparse, hval]

lemma parse_ok_ne_empty {s : String} {pd : ParsedData}
    (hparse : parseInstruction s = .ok pd) : s ≠ ("") := by
  intro h0
  rw [h0] at hparse
  rw [show parseInstruction ("") = .err ("SY03") true from by
    unfold parseInstruction
    rw [if_pos rfl]] at hparse
  exact ParseResult.noConfusion hparse

/-- C5: on the deferred path and on every validation-failure path no balance changes:
every returned account view carries balance_before equal to its balance, and both
equal the balance of a corresponding snapshot account. Caller-supplied records are
values here, so the input snapshot itself is never modified by construction. -/
theorem c5_no_mutation_on_failure :
    (∀ pd accounts today, (executeTransaction pd accounts today).status = ("pending") →
      ∀ v ∈ (executeTransaction pd accounts today).accounts,
        v.balance_before = v.balance ∧ ∃ a ∈ accounts, a.id = v.id ∧ a.balance = v.balance) ∧
    (∀ p s pd accounts today code,
      p.instruction = some s → p.accounts = some accounts →
      parseInstruction s = .ok pd → validateBusinessRules pd accounts = .fail code →
      ∀ v ∈ (paymentInstructionService (some p) today).accounts,
        v.balance_before = v.balance ∧ ∃ a ∈ accounts, a.id = v.id ∧ a.balance = v.balance) := by
  constructor
  · intro pd accounts today hstat v hv
    rw [executeTransaction_pending_iff] at hstat
    rw [executeTransaction_later hstat] at hv
    simp only at hv
    rw [mem_createAccountsResponse] at hv
    obtain ⟨a, ha, hid, rfl⟩ := hv
    exact ⟨by simp, a, ha, rfl, rfl⟩
  · intro p s pd accounts today code hp ha hparse hval v hv
    have hs : s ≠ ("") := parse_ok_ne_empty hparse
    rw [service_validation_failure hp ha hs hparse hval] at hv
    rw [show (createErrorResponse (.val pd.type) (.val pd.amount) (.val pd.currency)
        (.val pd.debit_account) (.val pd.credit_account) (jfieldOfOpt pd.execute_by)
        ("failed") (statusMessage code) code
        (createAccountsResponse accounts pd.debit_account pd.credit_account false)).accounts =
        createAccountsResponse accounts pd.debit_account pd.credit_account false from rfl] at hv
    rw [mem_createAccountsResponse] at hv
    obtain ⟨a, ha2, hid, rfl⟩ := hv
    exact ⟨by simp, a, ha2, rfl, rfl⟩

/-- Witness for C5 at the insufficient-funds example: the AC01 failure response
carries both accounts with unchanged balances. -/
theorem c5_no_mutation_on_failure_witness :
    (⟨("A1"), 100, ("NGN"), 100⟩ : AccountView).balance_before =
      (⟨("A1"), 100, ("NGN"), 100⟩ : AccountView).balance ∧
    ∃ a ∈ [({ id := ("A1"), balance := 100, currency := ("NGN") } : Acct),
           { id := ("B2"), balance := 200, currency := ("NGN") }],
      a.id = (⟨("A1"), 100, ("NGN"), 100⟩ : AccountView).id ∧
      a.balance = (⟨("A1"), 100, ("NGN"), 100⟩ : AccountView).balance :=
  c5_no_mutation_on_failure.2
    ⟨some ("DEBIT 500 NGN FROM ACCOUNT A1 FOR CREDIT TO ACCOUNT B2"),
     some [{ id := ("A1"), balance := 100, currency := ("NGN") },
           { id := ("B2"), balance := 200, currency := ("NGN") }]⟩
    ("DEBIT 500 NGN FROM ACCOUNT A1 FOR CREDIT TO ACCOUNT B2")
    ⟨("DEBIT"), ("500"), ("NGN"), ("A1"), ("B2"), none⟩
    [{ id := ("A1"), balance := 100, currency := ("NGN") },
     { id := ("B2"), balance := 200, currency := ("NGN") }]
    ⟨2026, 10, 12⟩ ("AC01") rfl rfl (by decide) (by decide)
    ⟨("A1"), 100, ("NGN"), 100⟩ (by decide)

/-- C8: a successful immediate settlement conserves value over the two involved
accounts: the debit view and the credit view satisfy balance_before plus
balance_before equals balance plus balance. -/
theorem c8_conservation (pd : ParsedData) (accounts : List Acct) (today : YMD)
    (hval : validateBusinessRules pd accounts = .ok)
    (hstat : (executeTransaction pd accounts today).status = ("successful")) :
    ∀ vd ∈ (executeTransaction pd accounts today).accounts,
      ∀ vc ∈ (executeTransaction pd accounts today).accounts,
        vd.id = pd.debit_account → vc.id = pd.credit_account →
        vd.balance_before + vc.balance_before = vd.balance + vc.balance := by
  intro vd hvd vc hvc hd hc
  have hne : pd.debit_account ≠ pd.credit_account := (validate_ok_facts hval).2.1
  rw [executeTransaction_successful_iff] at hstat
  rw [executeTransaction_now hstat] at hvd hvc
  simp only at hvd hvc
  rw [mem_createAccountsResponse] at hvd hvc
  obtain ⟨u, hu, _, rfl⟩ := hvd
  obtain ⟨w, hw, _, rfl⟩ := hvc
  obtain ⟨a, ha, rfl⟩ := List.mem_map.mp hu
  obtain ⟨a2, ha2, rfl⟩ := List.mem_map.mp hw
  simp only at hd hc
  have hida : (updateAccount pd a).id = a.id := by
    unfold updateAccount
    split
    · rfl
    · split <;> rfl
  have hida2 : (updateAccount pd a2).id = a2.id := by
    unfold updateAccount
    split
    · rfl
    · split <;> rfl
  rw [hida] at hd
  rw [hida2] at hc
  have hupd : updateAccount pd a =
      { a with balance_before := some a.balance,
               balance := a.balance - (parseIntJS pd.amount).getD 0,
               currency := strUpper a.currency } := by
    unfold updateAccount
    rw [if_pos hd]
  have hupd2 : updateAccount pd a2 =
      { a2 with balance_before := some a2.balance,
                balance := a2.balance + (parseIntJS pd.amount).getD 0,
                currency := strUpper a2.currency } := by
    have hne2 : ¬ a2.id = pd.debit_account := by
      rw [hc]
      exact fun h0 => hne h0.symm
    unfold updateAccount
    rw [if_neg hne2, if_pos hc]
  rw [hupd, hupd2]
  simp

/-- Witness for C8 at the spec example: 1000 + 200 before equals 500 + 700 after. -/
theorem c8_conservation_witness :
    (⟨("A1"), 500, ("NGN"), 1000⟩ : AccountView).balance_before +
      (⟨("B2"), 700, ("NGN"), 200⟩ : AccountView).balance_before =
    (⟨("A1"), 500, ("NGN"), 1000⟩ : AccountView).balance +
      (⟨("B2"), 700, ("NGN"), 200⟩ : AccountView).balance :=
  c8_conservation ⟨("DEBIT"), ("500"), ("NGN"), ("A1"), ("B2"), none⟩
    [{ id := ("A1"), balance := 1000, currency := ("NGN") },
     { id := ("B2"), balance := 200, currency := ("NGN") }]
    ⟨2026, 10, 12⟩ (by decide) (by decide)
    ⟨("A1"), 500, ("NGN"), 1000⟩ (by decide)
    ⟨("B2"), 700, ("NGN"), 200⟩ (by decide) rfl rfl

lemma updateAccount_id (pd : ParsedData) (a : Acct) : (updateAccount pd a).id = a.id := by
  unfold updateAccount
  split
  · rfl
  · split <;> rfl

lemma updateAccount_balance_before (pd : ParsedData) (a : Acct) :
    (updateAccount pd a).balance_before = some a.balance := by
  unfold updateAccount
  split
  · rfl
  · split <;> rfl

/-- C1: a well-formed DEBIT or CREDIT instruction with valid accounts and no
execution date settles immediately with status successful and code AP00; the debit
view holds balance minus amount, the credit view balance plus amount, and every view
carries balance_before equal to its snapshot balance. -/
theorem c1_immediate_settlement (p : Payload) (today : YMD) (pd : ParsedData) (s : String)
    (accounts : List Acct)
    (hp : p.instruction = some s) (ha : p.accounts = some accounts)
    (hparse : parseInstruction s = .ok pd)
    (hdate : pd.execute_by = none)
    (hval : validateBusinessRules pd accounts = .ok) :
    (paymentInstructionService (some p) today).status = ("successful") ∧
    (paymentInstructionService (some p) today).status_code = ("AP00") ∧
    ∃ amt : Int, parseIntJS pd.amount = some amt ∧
      (∀ v ∈ (paymentInstructionService (some p) today).accounts,
        ∃ a ∈ accounts, a.id = v.id ∧ v.balance_before = a.balance ∧
          (v.id = pd.debit_account → v.balance = a.balance - amt) ∧
          (v.id = pd.credit_account → v.balance = a.balance + amt)) ∧
      (∃ v ∈ (paymentInstructionService (some p) today).accounts, v.id = pd.debit_account) ∧
      (∃ v ∈ (paymentInstructionService (some p) today).accounts, v.id = pd.credit_account) := by
  have hs := parse_ok_ne_empty hparse
  have hsrv := @service_validation_ok p s pd accounts today hp ha hs hparse hval
  have hnow : shouldExecuteNow pd today = true := by
    unfold shouldExecuteNow
    rw [hdate]
  have hexec := @executeTransaction_now pd accounts today hnow
  obtain ⟨⟨amt, hamt, hpos⟩, hne, ⟨dA, hdA⟩, ⟨cA, hcA⟩, _⟩ := validate_ok_facts hval
  have hacc : (paymentInstructionService (some p) today).accounts =
      createAccountsResponse (accounts.map (updateAccount pd)) pd.debit_account
        pd.credit_account true := by
    rw [hsrv]
    show (executeTransaction pd accounts today).accounts = _
    rw [hexec]
  refine ⟨?_, ?_, amt, hamt, ?_, ?_, ?_⟩
  · rw [hsrv]
    show (executeTransaction pd accounts today).status = _
    rw [hexec]
  · rw [hsrv]
    show (executeTransaction pd accounts today).status_code = _
    rw [hexec]
  · intro v hv
    rw [hacc, mem_createAccountsResponse] at hv
    obtain ⟨u, hu, hid, rfl⟩ := hv
    obtain ⟨a, ha2, rfl⟩ := List.mem_map.mp hu
    by_cases hda : a.id = pd.debit_account
    · have hu1 : updateAccount pd a =
          { a with balance_before := some a.balance,
                   balance := a.balance - (parseIntJS pd.amount).getD 0,
                   currency := strUpper a.currency } := by
        unfold updateAccount
        rw [if_pos hda]
      rw [hu1]
      refine ⟨a, ha2, rfl, by simp, ?_, ?_⟩
      · intro _
        simp [hamt]
      · intro hcr
        simp only at hcr
        exact absurd (hda.symm.trans hcr) hne
    · by_cases hcr : a.id = pd.credit_account
      · have hu1 : updateAccount pd a =
            { a with balance_before := some a.balance,
                     balance := a.balance + (parseIntJS pd.amount).getD 0,
                     currency := strUpper a.currency } := by
          unfold updateAccount
          rw [if_neg hda, if_pos hcr]
        rw [hu1]
        refine ⟨a, ha2, rfl, by simp, ?_, ?_⟩
        · intro hdd
          simp only at hdd
          exact absurd (hcr.symm.trans hdd) (fun h0 => hne h0.symm)
        · intro _
          simp [hamt]
      · exfalso
        rw [updateAccount_id] at hid
        rcases hid with h0 | h0
        · exact hda h0
        · exact hcr h0
  · have hdAmem : dA ∈ accounts := List.mem_of_find?_eq_some hdA
    have hdAid : dA.id = pd.debit_account := by simpa using List.find?_some hdA
    rw [hacc]
    refine ⟨_, mem_createAccountsResponse.mpr
      ⟨updateAccount pd dA, List.mem_map_of_mem _ hdAmem,
        Or.inl (by rw [updateAccount_id, hdAid]), rfl⟩, ?_⟩
    show (updateAccount pd dA).id = pd.debit_account
    rw [updateAccount_id, hdAid]
  · have hcAmem : cA ∈ accounts := List.mem_of_find?_eq_some hcA
    have hcAid : cA.id = pd.credit_account := by simpa using List.find?_some hcA
    rw [hacc]
    refine ⟨_, mem_createAccountsResponse.mpr
      ⟨updateAccount pd cA, List.mem_map_of_mem _ hcAmem,
        Or.inr (by rw [updateAccount_id, hcAid]), rfl⟩, ?_⟩
    show (updateAccount pd cA).id = pd.credit_account
    rw [updateAccount_id, hcAid]

/-- Witness for C1 at the spec example: DEBIT 500 NGN from A1 to B2 with balances
1000 and 200 settles immediately with code AP00. -/
theorem c1_immediate_settlement_witness :
    (paymentInstructionService
      (some ⟨some ("DEBIT 500 NGN FROM ACCOUNT A1 FOR CREDIT TO ACCOUNT B2"),
        some [{ id := ("A1"), balance := 1000, currency := ("NGN") },
              { id := ("B2"), balance := 200, currency := ("NGN") }]⟩)
      ⟨2026, 10, 12⟩).status = ("successful") ∧
    (paymentInstructionService
      (some ⟨some ("DEBIT 500 NGN FROM ACCOUNT A1 FOR CREDIT TO ACCOUNT B2"),
        some [{ id := ("A1"), balance := 1000, currency := ("NGN") },
              { id := ("B2"), balance := 200, currency := ("NGN") }]⟩)
      ⟨2026, 10, 12⟩).status_code = ("AP00") :=
  have h := c1_immediate_settlement
    ⟨some ("DEBIT 500 NGN FROM ACCOUNT A1 FOR CREDIT TO ACCOUNT B2"),
      some [{ id := ("A1"), balance := 1000, currency := ("NGN") },
            { id := ("B2"), balance := 200, currency := ("NGN") }]⟩
    ⟨2026, 10, 12⟩ ⟨("DEBIT"), ("500"), ("NGN"), ("A1"), ("B2"), none⟩
    ("DEBIT 500 NGN FROM ACCOUNT A1 FOR CREDIT TO ACCOUNT B2")
    [{ id := ("A1"), balance := 1000, currency := ("NGN") },
     { id := ("B2"), balance := 200, currency := ("NGN") }]
    rfl rfl (by decide) rfl (by decide)
  ⟨h.1, h.2.1⟩

/-! The two-phase keyword validation of the grammar recognizers. -/

/-- C3 counterexample: in the instruction below every mandatory keyword of the DEBIT
form is present (FROM, FOR, CREDIT, TO and two ACCOUNT tokens) and only the relative
order of TO and the second ACCOUNT anchor is swapped, yet the parser reports SY01,
not SY02, because the chained search for ACCOUNT starting at the index of TO finds no
further occurrence. -/
theorem c3_counterexample :
    (tokenize ("DEBIT 10 NGN FROM ACCOUNT A1 FOR CREDIT ACCOUNT B2 TO")).length ≥ 8 ∧
    (tokenize ("DEBIT 10 NGN FROM ACCOUNT A1 FOR CREDIT ACCOUNT B2 TO")).getD 0 ("") =
      ("DEBIT") ∧
    ("FROM") ∈ tokenize ("DEBIT 10 NGN FROM ACCOUNT A1 FOR CREDIT ACCOUNT B2 TO") ∧
    ("FOR") ∈ tokenize ("DEBIT 10 NGN FROM ACCOUNT A1 FOR CREDIT ACCOUNT B2 TO") ∧
    ("CREDIT") ∈ tokenize ("DEBIT 10 NGN FROM ACCOUNT A1 FOR CREDIT ACCOUNT B2 TO") ∧
    ("TO") ∈ tokenize ("DEBIT 10 NGN FROM ACCOUNT A1 FOR CREDIT ACCOUNT B2 TO") ∧
    (tokenize ("DEBIT 10 NGN FROM ACCOUNT A1 FOR CREDIT ACCOUNT B2 TO")).count
      ("ACCOUNT") ≥ 2 ∧
    parseInstruction ("DEBIT 10 NGN FROM ACCOUNT A1 FOR CREDIT ACCOUNT B2 TO") =
      .err ("SY01") false ∧
    ("SY01") ≠ ("SY02") := by
  decide

/-- C3 amended: for a token sequence of at least 8 tokens led by DEBIT or CREDIT, if
any of the six chained anchor searches fails to resolve the parser returns SY01 (even
when the keyword occurs earlier in the sentence), and if all searches resolve but the
indices are not strictly increasing it returns SY02; a swap of two anchors therefore
yields SY02 only when every chained search still resolves. -/
theorem c3_two_phase (s : String) (h8 : ¬ (tokenize s).length < 8) :
    ((tokenize s).getD 0 ("") = ("DEBIT") →
      (((debitAnchors (tokenize s)).k1 = -1 ∨ (debitAnchors (tokenize s)).acct1 = -1 ∨
        (debitAnchors (tokenize s)).kFor = -1 ∨ (debitAnchors (tokenize s)).k4 = -1 ∨
        (debitAnchors (tokenize s)).k5 = -1 ∨ (debitAnchors (tokenize s)).acct2 = -1) →
        parseInstruction s = .err ("SY01") false) ∧
      (¬ ((debitAnchors (tokenize s)).k1 = -1 ∨ (debitAnchors (tokenize s)).acct1 = -1 ∨
        (debitAnchors (tokenize s)).kFor = -1 ∨ (debitAnchors (tokenize s)).k4 = -1 ∨
        (debitAnchors (tokenize s)).k5 = -1 ∨ (debitAnchors (tokenize s)).acct2 = -1) →
        ¬ ((debitAnchors (tokenize s)).k1 < (debitAnchors (tokenize s)).acct1 ∧
          (debitAnchors (tokenize s)).acct1 < (debitAnchors (tokenize s)).kFor ∧
          (debitAnchors (tokenize s)).kFor < (debitAnchors (tokenize s)).k4 ∧
          (debitAnchors (tokenize s)).k4 < (debitAnchors (tokenize s)).k5 ∧
          (debitAnchors (tokenize s)).k5 < (debitAnchors (tokenize s)).acct2) →
        parseInstruction s = .err ("SY02") false)) ∧
    ((tokenize s).getD 0 ("") = ("CREDIT") →
      (((creditAnchors (tokenize s)).k1 = -1 ∨ (creditAnchors (tokenize s)).acct1 = -1 ∨
        (creditAnchors (tokenize s)).kFor = -1 ∨ (creditAnchors (tokenize s)).k4 = -1 ∨
        (creditAnchors (tokenize s)).k5 = -1 ∨ (creditAnchors (tokenize s)).acct2 = -1) →
        parseInstruction s = .err ("SY01") false) ∧
      (¬ ((creditAnchors (tokenize s)).k1 = -1 ∨ (creditAnchors (tokenize s)).acct1 = -1 ∨
        (creditAnchors (tokenize s)).kFor = -1 ∨ (creditAnchors (tokenize s)).k4 = -1 ∨
        (creditAnchors (tokenize s)).k5 = -1 ∨ (creditAnchors (tokenize s)).acct2 = -1) →
        ¬ ((creditAnchors (tokenize s)).k1 < (creditAnchors (tokenize s)).acct1 ∧
          (creditAnchors (tokenize s)).acct1 < (creditAnchors (tokenize s)).kFor ∧
          (creditAnchors (tokenize s)).kFor < (creditAnchors (tokenize s)).k4 ∧
          (creditAnchors (tokenize s)).k4 < (creditAnchors (tokenize s)).k5 ∧
          (creditAnchors (tokenize s)).k5 < (creditAnchors (tokenize s)).acct2) →
        parseInstruction s = .err ("SY02") false)) := by
  have hs : s ≠ ("") := by
    intro h0
    rw [h0] at h8
    exact h8 (by decide)
  constructor
  · intro hhead
    have hhead' : (tokenize s)[0]?.getD ("") = ("DEBIT") := by
      simpa [List.getD] using hhead
    constructor
    · intro hpres
      have hinner : parseDebitInstruction (tokenize s) s = .err ("SY01") := by
        unfold parseDebitInstruction
        rw [if_pos hpres]
      simp [parseInstruction, hs, h8, hhead', hinner]
    · intro hpres hord
      have hinner : parseDebitInstruction (tokenize s) s = .err ("SY02") := by
        unfold parseDebitInstruction
        rw [if_neg hpres, if_pos hord]
      simp [parseInstruction, hs, h8, hhead', hinner]
  · intro hhead
    have hhead' : (tokenize s)[0]?.getD ("") = ("CREDIT") := by
      simpa [List.getD] using hhead
    have hne : (tokenize s)[0]?.getD ("") ≠ ("DEBIT") := by
      rw [hhead']
      decide
    constructor
    · intro hpres
      have hinner : parseCreditInstruction (tokenize s) s = .err ("SY01") := by
        unfold parseCreditInstruction
        rw [if_pos hpres]
      simp [parseInstruction, hs, h8, hne, hhead', hinner]
    · intro hpres hord
      have hinner : parseCreditInstruction (tokenize s) s = .err ("SY02") := by
        unfold parseCreditInstruction
        rw [if_neg hpres, if_pos hord]
      simp [parseInstruction, hs, h8, hne, hhead', hinner]

/-- Witness for the amended C3: a swap of FROM-ACCOUNT before the FOR clause keeps
all chained searches resolvable, so the parser reports SY02. -/
theorem c3_two_phase_witness :
    parseInstruction ("DEBIT 10 NGN FOR CREDIT TO ACCOUNT B2 FROM ACCOUNT A1") =
      .err ("SY02") false :=
  ((c3_two_phase ("DEBIT 10 NGN FOR CREDIT TO ACCOUNT B2 FROM ACCOUNT A1")
    (by decide)).1 (by decide)).2 (by decide) (by decide)

/-! The service boundary: totality, the SY03 fallback, and the shape of failure
responses. -/

/-- C7 counterexample: a DEBIT-form instruction with a missing mandatory keyword
fails with SY01 raised inside the recognizer, and the resulting response leaves the
type field undefined instead of setting it to an explicit null. -/
theorem c7_counterexample :
    (paymentInstructionService (some ⟨some ("DEBIT 1 2 3 4 5 6 7"), some []⟩)
      ⟨2026, 10, 12⟩).status_code = ("SY01") ∧
    (paymentInstructionService (some ⟨some ("DEBIT 1 2 3 4 5 6 7"), some []⟩)
      ⟨2026, 10, 12⟩).type = JField.undef ∧
    (JField.undef : JField String) ≠ JField.jnull := by
  decide

/-- C7 amended: the service is a total function into complete response records; an
absent payload, absent or empty instruction, absent accounts, or an instruction of
fewer than 8 tokens yields the failed SY03 response with all-null fields and no
accounts; failures raised inside the two grammar recognizers instead leave type,
debit_account, credit_account and execute_by undefined while amount and currency are
explicit nulls. -/
theorem c7_boundary :
    (∀ today, paymentInstructionService none today = sy03Response) ∧
    (∀ p today, (p.instruction = none ∨ p.instruction = some ("") ∨ p.accounts = none ∨
        (∃ s, p.instruction = some s ∧ (tokenize s).length < 8)) →
      paymentInstructionService (some p) today = sy03Response) ∧
    (sy03Response.type = JField.jnull ∧ sy03Response.amount = JField.jnull ∧
      sy03Response.currency = JField.jnull ∧ sy03Response.debit_account = JField.jnull ∧
      sy03Response.credit_account = JField.jnull ∧ sy03Response.execute_by = JField.jnull ∧
      sy03Response.status = ("failed") ∧ sy03Response.status_code = ("SY03") ∧
      sy03Response.accounts = []) ∧
    (∀ p s code today, p.instruction = some s → p.accounts ≠ none →
      parseInstruction s = .err code false →
      (paymentInstructionService (some p) today).type = JField.undef ∧
      (paymentInstructionService (some p) today).amount = JField.jnull ∧
      (paymentInstructionService (some p) today).currency = JField.jnull ∧
      (paymentInstructionService (some p) today).debit_account = JField.undef ∧
      (paymentInstructionService (some p) today).credit_account = JField.undef ∧
      (paymentInstructionService (some p) today).execute_by = JField.undef ∧
      (paymentInstructionService (some p) today).status = ("failed") ∧
      (paymentInstructionService (some p) today).status_code = code) := by
  refine ⟨fun _ => rfl, ?_, by decide, ?_⟩
  · intro p today h
    rcases h with h | h | h | ⟨s, hs1, hs2⟩
    · simp [paymentInstructionService, h]
    · simp [paymentInstructionService, h]
    · simp [paymentInstructionService, h]
    · by_cases hacc : p.accounts = none
      · simp [paymentInstructionService, hacc]
      · by_cases hse : s = ("")
        · rw [hse] at hs1
          simp [paymentInstructionService, hs1]
        · have hparse : parseInstruction s = .err ("SY03") true := by
            unfold parseInstruction
            rw [if_neg hse, if_pos hs2]
          obtain ⟨accs, haccs⟩ := Option.ne_none_iff_exists'.mp hacc
          simp [paymentInstructionService, hs1, haccs, hse, hparse, sy03Response]
  · intro p s code today hp hacc hparse
    have hs : s ≠ ("") := by
      intro h0
      rw [h0] at hparse
      rw [show parseInstruction ("") = .err ("SY03") true from by
        unfold parseInstruction
        rw [if_pos rfl]] at hparse
      exact Bool.noConfusion (ParseResult.err.inj hparse).2
    obtain ⟨accs, haccs⟩ := Option.ne_none_iff_exists'.mp hacc
    have hserv : paymentInstructionService (some p) today =
        createErrorResponse .undef .undef .undef .undef .undef .undef ("failed")
          (statusMessage code) code [] := by
      simp [paymentInstructionService, hp, haccs, hs, hparse]
    rw [hserv]
    exact ⟨rfl, rfl, rfl, rfl, rfl, rfl, rfl, rfl⟩

/-- Witness for the amended C7: a two-token instruction falls below the 8-token
minimum and produces the all-null SY03 failure response. -/
theorem c7_boundary_witness :
    paymentInstructionService (some ⟨some ("HELLO WORLD"), some []⟩) ⟨2026, 10, 12⟩ =
      sy03Response :=
  c7_boundary.2.1 ⟨some ("HELLO WORLD"), some []⟩ ⟨2026, 10, 12⟩
    (Or.inr (Or.inr (Or.inr ⟨("HELLO WORLD"), rfl, by decide⟩)))

/-! Calendar arithmetic: the day count daysBefore is strictly monotone in calendar
order, so the executor's epoch comparison is exactly the date-only comparison. -/

/-- A well-formed calendar date: month in range and day within the month. -/
def validYMD (y m d : Nat) : Prop :=
  1 ≤ y ∧ 1 ≤ m ∧ m ≤ 12 ∧ 1 ≤ d ∧ d ≤ daysInMonth y m

instance (y m d : Nat) : Decidable (validYMD y m d) := by
  unfold validYMD
  exact inferInstance

lemma leapsBefore_succ (y : Nat) :
    leapsBefore (y + 1) = leapsBefore y + (if isLeapYear (y + 1) then 1 else 0) := by
  unfold leapsBefore isLeapYear
  by_cases h4 : (y + 1) % 4 = 0 <;> by_cases h100 : (y + 1) % 100 = 0 <;>
    by_cases h400 : (y + 1) % 400 = 0 <;> simp [h4, h100, h400] <;> omega

lemma leapsBefore_mono {y z : Nat} (h : y ≤ z) : leapsBefore y ≤ leapsBefore z := by
  induction z with
  | zero =>
    have : y = 0 := Nat.le_zero.mp h
    subst this
    exact le_rfl
  | succ n ih =>
    by_cases hy : y ≤ n
    · refine (ih hy).trans ?_
      rw [leapsBefore_succ]
      split <;> omega
    · have : y = n + 1 := by omega
      subst this
      exact le_rfl

lemma month_day_bound (y m d : Nat) (hm1 : 1 ≤ m) (hm2 : m ≤ 12)
    (hd : d ≤ daysInMonth y m) :
    daysBeforeMonth m (isLeapYear y) + d ≤ 365 + (if isLeapYear y then 1 else 0) := by
  interval_cases m <;> cases hL : isLeapYear y <;>
    simp [daysBeforeMonth, daysInMonth, hL] at hd ⊢ <;> omega

lemma month_lt_bound (y m1 d1 m2 d2 : Nat) (hm11 : 1 ≤ m1) (hd1 : d1 ≤ daysInMonth y m1)
    (hm : m1 < m2) (hm22 : m2 ≤ 12) (hd2 : 1 ≤ d2) :
    daysBeforeMonth m1 (isLeapYear y) + d1 < daysBeforeMonth m2 (isLeapYear y) + d2 := by
  have hm12 : m1 ≤ 11 := by omega
  interval_cases m1 <;> interval_cases m2 <;> cases hL : isLeapYear y <;>
    simp [daysBeforeMonth, daysInMonth, hL] at hd1 ⊢ <;> omega

lemma daysBefore_lt_of_lt {y1 m1 d1 y2 m2 d2 : Nat}
    (h1 : validYMD y1 m1 d1) (h2 : validYMD y2 m2 d2)
    (hlt : y1 < y2 ∨ (y1 = y2 ∧ (m1 < m2 ∨ (m1 = m2 ∧ d1 < d2)))) :
    daysBefore y1 m1 d1 < daysBefore y2 m2 d2 := by
  obtain ⟨hy1, hm11, hm12, hd11, hd12⟩ := h1
  obtain ⟨hy2, hm21, hm22, hd21, hd22⟩ := h2
  rcases hlt with hy | ⟨hy, hm | ⟨hm, hd⟩⟩
  · have hub := month_day_bound y1 m1 d1 hm11 hm12 hd12
    have hle : leapsBefore y1 = leapsBefore (y1 - 1) + (if isLeapYear y1 then 1 else 0) := by
      have := leapsBefore_succ (y1 - 1)
      rw [show y1 - 1 + 1 = y1 by omega] at this
      exact this
    have hmono : leapsBefore y1 ≤ leapsBefore (y2 - 1) := leapsBefore_mono (by omega)
    unfold daysBefore
    cases hL : isLeapYear y1 <;> rw [hL] at hub hle <;> simp at hub hle <;> omega
  · subst hy
    have := month_lt_bound y1 m1 d1 m2 d2 hm11 hd12 hm hm22 hd21
    unfold daysBefore
    omega
  · subst hy
    subst hm
    unfold daysBefore
    omega

lemma daysBefore_le_iff {y1 m1 d1 y2 m2 d2 : Nat}
    (h1 : validYMD y1 m1 d1) (h2 : validYMD y2 m2 d2) :
    daysBefore y1 m1 d1 ≤ daysBefore y2 m2 d2 ↔
      (y1 < y2 ∨ (y1 = y2 ∧ (m1 < m2 ∨ (m1 = m2 ∧ d1 ≤ d2)))) := by
  constructor
  · intro hle
    by_contra hlex
    have hgt : y2 < y1 ∨ (y2 = y1 ∧ (m2 < m1 ∨ (m2 = m1 ∧ d2 < d1))) := by omega
    have := daysBefore_lt_of_lt h2 h1 hgt
    omega
  · intro hlex
    rcases hlex with hy | ⟨hy, hm | ⟨hm, hd⟩⟩
    · exact Nat.le_of_lt (daysBefore_lt_of_lt h1 h2 (Or.inl hy))
    · exact Nat.le_of_lt (daysBefore_lt_of_lt h1 h2 (Or.inr ⟨hy, Or.inl hm⟩))
    · subst hy
      subst hm
      unfold daysBefore
      omega

lemma isValidDate_facts {e : String} (h : isValidDate e = true) :
    validYMD (parseDateYMD e).1 (parseDateYMD e).2.1 (parseDateYMD e).2.2 := by
  unfold isValidDate at h
  split at h
  · exact Bool.noConfusion h
  split at h
  · exact Bool.noConfusion h
  split at h
  · exact Bool.noConfusion h
  split at h
  case _ y m d hy hm hd =>
    split at h
    · exact Bool.noConfusion h
    split at h
    · exact Bool.noConfusion h
    split at h
    · exact Bool.noConfusion h
    rename_i hy2 hm2 hd2
    rw [decide_eq_true_eq] at h
    unfold parseDateYMD
    rw [hy, hm, hd]
    simp only [Option.getD_some]
    refine ⟨by omega, by omega, by omega, by omega, h⟩
  · exact Bool.noConfusion h

/-- C2 counterexample: the date string 2023-1E-29 passes DT01, since parseInt reads
month 1 and day 29 and tolerates the trailing E, and its components name a date in
the past; yet 2023-1E-29T00:00:00.000Z fails the strict ISO parse, so the source
holds an Invalid Date whose comparison is false and the settlement is deferred with
pending/AP02 instead of being executed as the claim demands. -/
theorem c2_counterexample :
    validateBusinessRules
      ⟨("DEBIT"), ("500"), ("NGN"), ("A1"), ("B2"), some ("2023-1E-29")⟩
      [{ id := ("A1"), balance := 1000, currency := ("NGN") },
       { id := ("B2"), balance := 200, currency := ("NGN") }] = .ok ∧
    isValidDate ("2023-1E-29") = true ∧
    parseDateYMD ("2023-1E-29") = (2023, 1, 29) ∧
    (parseDateYMD ("2023-1E-29")).1 < (⟨2026, 10, 12⟩ : YMD).year ∧
    (executeTransaction ⟨("DEBIT"), ("500"), ("NGN"), ("A1"), ("B2"), some ("2023-1E-29")⟩
      [{ id := ("A1"), balance := 1000, currency := ("NGN") },
       { id := ("B2"), balance := 200, currency := ("NGN") }]
      ⟨2026, 10, 12⟩).status = ("pending") ∧
    (executeTransaction ⟨("DEBIT"), ("500"), ("NGN"), ("A1"), ("B2"), some ("2023-1E-29")⟩
      [{ id := ("A1"), balance := 1000, currency := ("NGN") },
       { id := ("B2"), balance := 200, currency := ("NGN") }]
      ⟨2026, 10, 12⟩).status_code = ("AP02") ∧
    ("pending") ≠ ("successful") := by
  decide

/-- C2 amended: an instruction that passed parsing and validation settles immediately
exactly when no execution date was given (null or the empty string, both falsy) or
the date string is a strictly digit-formatted YYYY-MM-DD calendar date, the only form
the ISO parse accepts, whose date compared date-only is at most the current UTC
calendar date; every other date string accepted by DT01 yields an Invalid Date and is
always deferred, and otherwise the settlement is deferred with status pending. The
process timezone is modelled as UTC. -/
theorem c2_settlement_decision (pd : ParsedData) (accounts : List Acct) (today : YMD)
    (htoday : validYMD today.year today.month today.day)
    (hval : validateBusinessRules pd accounts = .ok) :
    ((executeTransaction pd accounts today).status = ("successful") ↔
      (pd.execute_by = none ∨ pd.execute_by = some ("") ∨
        ∃ e, pd.execute_by = some e ∧ isStrictISODate e = true ∧
          ((parseDateYMD e).1 < today.year ∨ ((parseDateYMD e).1 = today.year ∧
            ((parseDateYMD e).2.1 < today.month ∨ ((parseDateYMD e).2.1 = today.month ∧
              (parseDateYMD e).2.2 ≤ today.day)))))) ∧
    ((executeTransaction pd accounts today).status = ("pending") ↔
      ¬ (pd.execute_by = none ∨ pd.execute_by = some ("") ∨
        ∃ e, pd.execute_by = some e ∧ isStrictISODate e = true ∧
          ((parseDateYMD e).1 < today.year ∨ ((parseDateYMD e).1 = today.year ∧
            ((parseDateYMD e).2.1 < today.month ∨ ((parseDateYMD e).2.1 = today.month ∧
              (parseDateYMD e).2.2 ≤ today.day)))))) := by
  have hfacts := (validate_ok_facts hval).2.2.2.2
  have hmain : shouldExecuteNow pd today = true ↔
      (pd.execute_by = none ∨ pd.execute_by = some ("") ∨
        ∃ e, pd.execute_by = some e ∧ isStrictISODate e = true ∧
          ((parseDateYMD e).1 < today.year ∨ ((parseDateYMD e).1 = today.year ∧
            ((parseDateYMD e).2.1 < today.month ∨ ((parseDateYMD e).2.1 = today.month ∧
              (parseDateYMD e).2.2 ≤ today.day))))) := by
    unfold shouldExecuteNow
    rcases hfacts with hnone | ⟨e, he, hee⟩
    · rw [hnone]
      simp
    · rw [he]
      show (if e = ("") then true else isDateInPastOrToday e today) = true ↔ _
      rcases hee with he0 | hev
      · rw [if_pos he0]
        exact iff_of_true rfl (Or.inr (Or.inl (by rw [he0])))
      · have hne : e ≠ ("") := by
          intro h0
          rw [h0] at hev
          exact absurd hev (by decide)
        rw [if_neg hne]
        unfold isDateInPastOrToday
        cases hiso : isStrictISODate e with
        | false =>
          rw [if_neg (by simp)]
          refine iff_of_false (by simp) ?_
          rintro (h0 | h0 | ⟨e2, he2, hiso2, _⟩)
          · exact Option.noConfusion h0
          · exact hne (Option.some.inj h0)
          · rw [← Option.some.inj he2, hiso] at hiso2
            exact Bool.noConfusion hiso2
        | true =>
          rw [if_pos rfl]
          have hvd := isValidDate_facts hev
          rcases hpe : parseDateYMD e with ⟨py, pmo, pda⟩
          rw [hpe] at hvd
          simp only at hvd
          show decide (daysBefore py pmo pda ≤
            daysBefore today.year today.month today.day) = true ↔ _
          rw [decide_eq_true_eq]
          rw [daysBefore_le_iff hvd htoday]
          constructor
          · intro hlex
            exact Or.inr (Or.inr ⟨e, rfl, hiso, by rw [hpe]; simpa using hlex⟩)
          · rintro (h0 | h0 | ⟨e2, he2, _, hlex⟩)
            · exact Option.noConfusion h0
            · exact absurd (Option.some.inj h0) hne
            · rw [← Option.some.inj he2, hpe] at hlex
              simpa using hlex
  refine ⟨executeTransaction_successful_iff.trans hmain, ?_⟩
  refine executeTransaction_pending_iff.trans ?_
  rw [← hmain]
  constructor
  · intro h0 h1
    rw [h1] at h0
    exact Bool.noConfusion h0
  · intro h0
    cases h2 : shouldExecuteNow pd today
    · rfl
    · exact absurd h2 h0

/-- Witness for the amended C2: a strictly formatted past execution date, 2020-01-01
against today 2026-10-12, settles immediately. -/
theorem c2_settlement_decision_witness :
    (executeTransaction ⟨("DEBIT"), ("500"), ("NGN"), ("A1"), ("B2"), some ("2020-01-01")⟩
      [{ id := ("A1"), balance := 1000, currency := ("NGN") },
       { id := ("B2"), balance := 200, currency := ("NGN") }]
      ⟨2026, 10, 12⟩).status = ("successful") :=
  (c2_settlement_decision ⟨("DEBIT"), ("500"), ("NGN"), ("A1"), ("B2"), some ("2020-01-01")⟩
    [{ id := ("A1"), balance := 1000, currency := ("NGN") },
     { id := ("B2"), balance := 200, currency := ("NGN") }]
    ⟨2026, 10, 12⟩ (by decide) (by decide)).1.mpr
    (Or.inr (Or.inr ⟨("2020-01-01"), rfl, by decide, by decide⟩))

end PaymentInstructions
